import Mathlib

/- Shallow embedding of the GTFS-Analyzer metrics engine:
   src/utils/gtfs_parser.py (calendar resolver) and
   src/utils/metrics_calculator.py (metrics engine).

   Modelling conventions:
   * a pandas DataFrame is a `List` of records; the `gtfs_data` dictionary is a
     structure with one `Option` field per table (key absent = `none`);
   * Python exceptions become an explicit `PyError` threaded through `Except`;
   * a missing cell of a string column (pandas NaN) is `Option String`;
   * time arithmetic uses `Rat` (pandas floats on these inputs are exact
     decimal-free fractions only in spirit; no claim depends on rounding of
     binary floats, all arithmetic involved is small and exact);
   * pandas `groupby` iterates groups in sorted key order; the embedding keeps
     keys in order of appearance (`List.dedup` order).  Every theorem below is
     insensitive to group order, so this difference is unobservable here, and
     likewise for tie order inside non-stable `sort_values`. -/

namespace GTFS

/-- Python exceptions the embedded code can raise.  `keyError t` models the
`KeyError` from `gtfs_data[t]` (the spec's DataError); `valueError` models
`ValueError` (the spec's NotFoundError when raised by the route lookup in
`get_route_details`, and int/parse failures, with abbreviated messages);
`attributeError` models `AttributeError` on a value lacking a method. -/
inductive PyError where
  | keyError (table : String)
  | valueError (msg : String)
  | attributeError (msg : String)
deriving DecidableEq, Repr

/-- A calendar date, the result of datetime/pandas date parsing. -/
structure Date where
  year : Nat
  month : Nat
  day : Nat
deriving DecidableEq, Repr

/-- Chronological comparison of dates (datetime order). -/
def Date.le (a b : Date) : Bool :=
  if a.year = b.year then
    if a.month = b.month then decide (a.day ≤ b.day)
    else decide (a.month < b.month)
  else decide (a.year < b.year)

/-- Weekday of a date by Zeller's congruence, numbered like Python's
`date.weekday()`: 0 = Monday, ..., 6 = Sunday. -/
def Date.weekday (d : Date) : Nat :=
  let y := if d.month < 3 then d.year - 1 else d.year
  let m := if d.month < 3 then d.month + 12 else d.month
  let k := y % 100
  let j := y / 100
  let h := (d.day + (13 * (m + 1)) / 5 + k + k / 4 + j / 4 + 5 * j) % 7
  (h + 5) % 7

/-- Lower-case English day name, as `date.strftime(%A).lower()` produces. -/
def dayNameOf (w : Nat) : String :=
  match w with
  | 0 => "monday"
  | 1 => "tuesday"
  | 2 => "wednesday"
  | 3 => "thursday"
  | 4 => "friday"
  | 5 => "saturday"
  | _ => "sunday"

/-- Row of routes.txt (columns the engine reads). -/
structure RouteRow where
  route_id : String
  route_short_name : String
  route_long_name : String
  route_type : Int
deriving DecidableEq, Repr

/-- Row of trips.txt (columns the engine reads). -/
structure TripRow where
  trip_id : String
  route_id : String
  service_id : String
  direction_id : Int
  shape_id : String
deriving DecidableEq, Repr

/-- Row of stop_times.txt.  Time cells may be missing (pandas NaN). -/
structure StopTimeRow where
  trip_id : String
  arrival_time : Option String
  departure_time : Option String
  stop_id : String
  stop_sequence : Int
deriving DecidableEq, Repr

/-- Row of stops.txt. -/
structure StopRow where
  stop_id : String
  stop_name : String
  stop_lat : Rat
  stop_lon : Rat
deriving DecidableEq, Repr

/-- Row of shapes.txt. -/
structure ShapeRow where
  shape_id : String
  shape_pt_lat : Rat
  shape_pt_lon : Rat
  shape_pt_sequence : Int
deriving DecidableEq, Repr

/-- Row of calendar.txt: one 0/1 flag per weekday plus a validity range.  The
YYYYMMDD date strings are modelled post-parse (`pd.to_datetime`). -/
structure CalendarRow where
  service_id : String
  monday : Int
  tuesday : Int
  wednesday : Int
  thursday : Int
  friday : Int
  saturday : Int
  sunday : Int
  start_date : Date
  end_date : Date
deriving DecidableEq, Repr

/-- Row of calendar_dates.txt, date modelled post-parse. -/
structure CalendarDateRow where
  service_id : String
  date : Date
  exception_type : Int
deriving DecidableEq, Repr

/-- The `gtfs_data` dictionary built by `load_gtfs_tables`.  `none` models a
key absent from the dictionary.  agency, frequencies and transfers may also be
loaded but are never read by any embedded function, so they are omitted. -/
structure GtfsData where
  routes : Option (List RouteRow) := none
  stops : Option (List StopRow) := none
  trips : Option (List TripRow) := none
  stop_times : Option (List StopTimeRow) := none
  calendar : Option (List CalendarRow) := none
  calendar_dates : Option (List CalendarDateRow) := none
  shapes : Option (List ShapeRow) := none
deriving DecidableEq, Repr

/-- Dictionary access `gtfs_data[name]`: raises `KeyError name` when absent. -/
def getTable (t : Option α) (name : String) : Except PyError α :=
  match t with
  | some v => .ok v
  | none => .error (.keyError name)

/-- Stable insertion for `sortByLe`. -/
def insertLe (le : α → α → Bool) (x : α) : List α → List α
  | [] => [x]
  | y :: ys => if le x y then x :: y :: ys else y :: insertLe le x ys

/-- Stable sort by a boolean total preorder (models `sort_values`; ties keep
input order, which no theorem below observes). -/
def sortByLe (le : α → α → Bool) (l : List α) : List α :=
  l.foldr (insertLe le) []

/-- Grouping of rows by a key (models `groupby`): one group per distinct key,
each group the sublist of rows carrying that key. -/
def groupsBy [DecidableEq κ] (key : α → κ) (rows : List α) : List (κ × List α) :=
  ((rows.map key).dedup).map (fun k => (k, rows.filter (fun r => key r = k)))

/-- Successive differences of a numeric column (pandas `diff`): the first
entry is null, entry i+1 is value(i+1) - value(i). -/
def diffsRat (l : List Rat) : List (Option Rat) :=
  match l with
  | [] => []
  | _ :: tail => none :: List.zipWith (fun a b => some (b - a)) l tail

/-- Successive differences of a nullable column (pandas `diff` with NaN
propagation): a difference touching a null is null. -/
def diffsOptRat (l : List (Option Rat)) : List (Option Rat) :=
  match l with
  | [] => []
  | _ :: tail =>
    none :: List.zipWith (fun a b =>
      match a, b with
      | some x, some y => some (y - x)
      | _, _ => none) l tail

/-- Mean of the non-null entries of a column (pandas `mean`, default skipna):
null when no entry is non-null. -/
def meanOpt (l : List (Option Rat)) : Option Rat :=
  let vs := l.filterMap id
  if vs.length = 0 then none else some (vs.sum / (vs.length : Rat))

/-- First row attaining the minimum of `f` (pandas `idxmin`: ties resolved to
the earliest row). -/
def minBy (f : α → Int) : List α → Option α
  | [] => none
  | x :: xs =>
    match minBy f xs with
    | none => some x
    | some y => if f x ≤ f y then some x else some y

/-- The recurring reduction `rows.loc[rows.groupby(trip_id).stop_sequence.idxmin()]`:
one row per distinct trip_id, the first row attaining its minimum stop_sequence. -/
def firstStopPerTrip (tid : α → String) (seq : α → Int) (rows : List α) : List α :=
  ((rows.map tid).dedup).filterMap (fun t => minBy seq (rows.filter (fun r => tid r = t)))

/-- Sequencing of a fallible row operation over a column (pandas `apply` of a
raising function): the first raised error aborts the whole call. -/
def mapME (f : α → Except PyError β) : List α → Except PyError (List β)
  | [] => .ok []
  | x :: xs =>
    match f x with
    | .error e => .error e
    | .ok y =>
      match mapME f xs with
      | .error e => .error e
      | .ok ys => .ok (y :: ys)

/-- Split of a character list at every occurrence of a separator, matching
Python `str.split` with an explicit separator (empty fields preserved). -/
def splitOnChar (c : Char) : List Char → List (List Char)
  | [] => [[]]
  | x :: xs =>
    let rest := splitOnChar c xs
    if x = c then [] :: rest
    else
      match rest with
      | [] => [[x]]
      | r :: rs => (x :: r) :: rs

/-- ASCII whitespace test, for the stripping Python `int` performs.  (Python
also strips some unicode spaces; no GTFS time field contains those.) -/
def isSpaceChar (c : Char) : Bool :=
  c = ' ' ∨ c = '\t' ∨ c = '\n' ∨ c = '\r'

/-- Value of a nonempty all-digit character list. -/
def digitsVal (ds : List Char) : Option Nat :=
  if ds = [] then none
  else if ds.all (fun c => c.isDigit) then
    some (ds.foldl (fun acc c => acc * 10 + (c.toNat - 48)) 0)
  else none

/-- Python `int(s)` on the characters of a string: surrounding whitespace
stripped, optional sign, nonempty digit run; `none` models the `ValueError` it
otherwise raises.  (Underscore digit separators, accepted by Python, are not
modelled; no GTFS feed and no claim uses them.) -/
def pyIntChars (l : List Char) : Option Int :=
  let t := ((l.dropWhile isSpaceChar).reverse.dropWhile isSpaceChar).reverse
  match t with
  | [] => none
  | '+' :: ds => (digitsVal ds).map (fun n => (n : Int))
  | '-' :: ds => (digitsVal ds).map (fun n => -(n : Int))
  | ds => (digitsVal ds).map (fun n => (n : Int))

/-- Python `int(s)` on a string. -/
def pyInt (s : String) : Option Int :=
  pyIntChars s.toList

/-- Shared shape of all three time parsers: `h, m, s = map(int, x.split(':'))`.
`none` models the `ValueError` raised either by a wrong number of fields in the
unpacking or by `int` on a non-numeric field. -/
def parseHMS (s : String) : Option (Int × Int × Int) :=
  match splitOnChar ':' s.toList with
  | [a, b, c] =>
    match pyIntChars a, pyIntChars b, pyIntChars c with
    | some h, some m, some sec => some (h, m, sec)
    | _, _, _ => none
  | _ => none

namespace RouteFrequencies

/-- Embedded from `calculate_route_frequencies.time_to_minutes`
(metrics_calculator.py lines 40-43).  This copy has no try/except: a missing
cell (NaN, a float) raises AttributeError at `.split`, an unparseable string
raises ValueError inside `int`.  Messages are abbreviated. -/
def time_to_minutes (x : Option String) : Except PyError Rat :=
  match x with
  | none => .error (.attributeError "float object has no attribute split")
  | some s =>
    match parseHMS s with
    | none => .error (.valueError "could not parse time")
    | some (h, m, sec) => .ok ((h : Rat) * 60 + (m : Rat) + (sec : Rat) / 60)

end RouteFrequencies

namespace ServiceHours

/-- Embedded from `calculate_service_hours.time_to_seconds`
(metrics_calculator.py lines 92-100): explicit isna/empty checks plus a
try/except that converts any parse failure to None. -/
def time_to_seconds (x : Option String) : Option Int :=
  match x with
  | none => none
  | some s =>
    if s = "" then none
    else (parseHMS s).map (fun p => p.1 * 3600 + p.2.1 * 60 + p.2.2)

end ServiceHours

namespace RouteDetails

/-- Embedded from `get_route_details.time_to_minutes`
(metrics_calculator.py lines 338-346): same guarded shape, returns None on
missing/empty/unparseable input. -/
def time_to_minutes (x : Option String) : Option Rat :=
  match x with
  | none => none
  | some s =>
    if s = "" then none
    else (parseHMS s).map (fun p => (p.1 : Rat) * 60 + (p.2.1 : Rat) + (p.2.2 : Rat) / 60)

end RouteDetails

/-- The weekday flag column of a calendar row selected by weekday number
(`calendar[day_name]` with `day_name` from `strftime`). -/
def dayFlag (r : CalendarRow) (w : Nat) : Int :=
  match w with
  | 0 => r.monday
  | 1 => r.tuesday
  | 2 => r.wednesday
  | 3 => r.thursday
  | 4 => r.friday
  | 5 => r.saturday
  | _ => r.sunday

/-- Embedded from `gtfs_parser.get_active_service` (lines 40-90), date already
parsed (the datetime-argument path).  The Python source initialises
`active_services = set()` but, inside the calendar branch, rebinds it to
`active_calendar['service_id'].tolist()` — a list.  The calendar_dates loop
then calls `.add` / `.discard` on that list, so the first exception row for the
requested date whose exception_type is 1 or 2 raises AttributeError; rows with
any other exception_type fall through both branches and are skipped. -/
def get_active_service (g : GtfsData) (date : Date) : Except PyError (List String) :=
  match g.calendar with
  | none => .ok []
  | some cal =>
    let active := (cal.filter (fun r =>
        Date.le r.start_date date && Date.le date r.end_date &&
        dayFlag r date.weekday == 1)).map (fun r => r.service_id)
    match g.calendar_dates with
    | none => .ok active
    | some cds =>
      let exceptions := cds.filter (fun r => r.date = date)
      match exceptions.find? (fun r => r.exception_type == 1 || r.exception_type == 2) with
      | some r =>
        .error (.attributeError (if r.exception_type == 1
          then "list object has no attribute add"
          else "list object has no attribute discard"))
      | none => .ok active

/-- Written from the spec, section 4.1 and testable property 1, for comparison
with `get_active_service`: base set of service_ids whose calendar row covers
the date with the weekday flag set, then every matching exception applied —
type 1 adds the service_id, type 2 removes it. -/
def activeServicesSpec (g : GtfsData) (date : Date) : List String :=
  match g.calendar with
  | none => []
  | some cal =>
    let base := (cal.filter (fun r =>
        Date.le r.start_date date && Date.le date r.end_date &&
        dayFlag r date.weekday == 1)).map (fun r => r.service_id)
    let exceptions : List CalendarDateRow :=
      match g.calendar_dates with
      | none => []
      | some cds => cds.filter (fun r => r.date = date)
    let added : List String := base ++ (exceptions.filter (fun r => r.exception_type == 1)).map (fun r => r.service_id)
    let removed : List String := (exceptions.filter (fun r => r.exception_type == 2)).map (fun r => r.service_id)
    (added.filter (fun s => decide (s ∉ removed))).dedup

/-- Comparison on a nullable numeric sort key: nulls placed last
(pandas `sort_values` default `na_position=last`). -/
def optRatLe : Option Rat → Option Rat → Bool
  | none, none => true
  | none, some _ => false
  | some _, none => true
  | some a, some b => decide (a ≤ b)

/-- Minimum of the non-null entries of an Int column (pandas `min`, skipna). -/
def minOptInt (l : List (Option Int)) : Option Int :=
  match l.filterMap id with
  | [] => none
  | x :: xs => some (xs.foldl (fun a b => if b < a then b else a) x)

/-- Maximum of the non-null entries of an Int column (pandas `max`, skipna). -/
def maxOptInt (l : List (Option Int)) : Option Int :=
  match l.filterMap id with
  | [] => none
  | x :: xs => some (xs.foldl (fun a b => if a < b then b else a) x)

/-- Minimum of a String column (pandas `min` on an object column: Python
string comparison, codepoint-lexicographic). -/
def minStringOpt (l : List String) : Option String :=
  match l with
  | [] => none
  | x :: xs => some (xs.foldl (fun a b => if b < a then b else a) x)

/-- Maximum of a String column. -/
def maxStringOpt (l : List String) : Option String :=
  match l with
  | [] => none
  | x :: xs => some (xs.foldl (fun a b => if a < b then b else a) x)

/-- Minimum of an Int column with a default for the empty case (the groups it
is applied to are always nonempty). -/
def minIntD (l : List Int) (dflt : Int) : Int :=
  match l with
  | [] => dflt
  | x :: xs => xs.foldl (fun a b => if b < a then b else a) x

/-- Rounding half-to-even of a rational to an integer, as numpy/pandas and
Python 3 `round` perform on these values. -/
def roundHalfEven (s : Rat) : Int :=
  if s - (Rat.floor s : Rat) < 1/2 then Rat.floor s
  else if 1/2 < s - (Rat.floor s : Rat) then Rat.floor s + 1
  else if Rat.floor s % 2 = 0 then Rat.floor s else Rat.floor s + 1

/-- Banker's rounding to 2 decimal places, `round(x, 2)` (ties to even; the
binary-float representation issue does not arise for the small exact fractions
these claims evaluate). -/
def round2 (x : Rat) : Rat :=
  (roundHalfEven (x * 100) : Rat) / 100

/-- Row of the inner join routes↔trips↔stop_times built by
`calculate_route_frequencies` (the `on` key column appears once). -/
structure RtsRow where
  route_id : String
  route_short_name : String
  route_long_name : String
  route_type : Int
  trip_id : String
  service_id : String
  direction_id : Int
  shape_id : String
  arrival_time : Option String
  departure_time : Option String
  stop_id : String
  stop_sequence : Int
deriving DecidableEq, Repr

/-- The two merges of `calculate_route_frequencies` (lines 46-47):
`pd.merge(routes, trips, on=route_id)` then `pd.merge(.., stop_times, on=trip_id)`,
preserving pandas order: left rows in order, each with its matches in order. -/
def rfMerged (rs : List RouteRow) (ts : List TripRow) (sts : List StopTimeRow) : List RtsRow :=
  (rs.flatMap (fun r =>
    (ts.filter (fun t => t.route_id = r.route_id)).map (fun t => (r, t)))).flatMap
    (fun p => (sts.filter (fun st => st.trip_id = p.2.trip_id)).map (fun st =>
      { route_id := p.1.route_id
        route_short_name := p.1.route_short_name
        route_long_name := p.1.route_long_name
        route_type := p.1.route_type
        trip_id := p.2.trip_id
        service_id := p.2.service_id
        direction_id := p.2.direction_id
        shape_id := p.2.shape_id
        arrival_time := st.arrival_time
        departure_time := st.departure_time
        stop_id := st.stop_id
        stop_sequence := st.stop_sequence }))

/-- The merged rows after the optional service_id filter (lines 50-51). -/
def rfFiltered (rs : List RouteRow) (ts : List TripRow) (sts : List StopTimeRow)
    (service_id : Option String) : List RtsRow :=
  match service_id with
  | none => rfMerged rs ts sts
  | some sid => (rfMerged rs ts sts).filter (fun r => r.service_id = sid)

/-- Output row of `calculate_route_frequencies`. -/
structure FreqRow where
  route_id : String
  route_short_name : String
  route_long_name : String
  avg_headway_min : Option Rat
deriving DecidableEq, Repr

/-- The per-route headway column assignment (line 65,
`groupby(route_id)[departure_mins].diff()`): each row paired with its
within-route successive difference, the first row of a route group null.
Because the rows are sorted by (route_id, departure_mins) at this point, each
route group is contiguous and the flattened pairing covers every row. -/
def rfWithHeadways (sorted : List (RtsRow × Rat)) : List (RtsRow × Option Rat) :=
  (groupsBy (fun p => p.1.route_id) sorted).flatMap (fun g =>
    List.zipWith (fun p h => (p.1, h)) g.2 (diffsRat (g.2.map (fun p => p.2))))

/-- Pure tail of `calculate_route_frequencies` (lines 56-77) on rows whose
departure_mins column parsed: first stop per trip, sort by (route_id,
departure_mins), per-route successive differences (first of each route null),
group by route identity, mean of the non-null headways, sort ascending by
average with nulls last. -/
def rfAggregate (rows : List (RtsRow × Rat)) : List FreqRow :=
  let fs := firstStopPerTrip (fun p => p.1.trip_id) (fun p => p.1.stop_sequence) rows
  let sorted := sortByLe (fun a b =>
    if a.1.route_id = b.1.route_id then decide (a.2 ≤ b.2)
    else decide (a.1.route_id < b.1.route_id)) fs
  let withHw := rfWithHeadways sorted
  let agg := (groupsBy (fun p =>
      (p.1.route_id, p.1.route_short_name, p.1.route_long_name)) withHw).map
    (fun g =>
      { route_id := g.1.1
        route_short_name := g.1.2.1
        route_long_name := g.1.2.2
        avg_headway_min := meanOpt (g.2.map (fun p => p.2)) })
  sortByLe (fun a b => optRatLe a.avg_headway_min b.avg_headway_min) agg

/-- Embedded from `calculate_route_frequencies` (lines 29-77). -/
def calculate_route_frequencies (g : GtfsData) (service_id : Option String) :
    Except PyError (List FreqRow) := do
  let rs ← getTable g.routes "routes"
  let ts ← getTable g.trips "trips"
  let sts ← getTable g.stop_times "stop_times"
  let filtered := rfFiltered rs ts sts service_id
  let rows ← mapME (fun r =>
    (RouteFrequencies.time_to_minutes r.departure_time).map (fun v => (r, v))) filtered
  return rfAggregate rows

/-- Row of the inner join trips↔stop_times shared by `calculate_service_hours`,
`calculate_stop_metrics`, `calculate_trips_by_hour` and
`calculate_peak_offpeak_metrics`. -/
structure TsRow where
  trip_id : String
  route_id : String
  service_id : String
  direction_id : Int
  shape_id : String
  arrival_time : Option String
  departure_time : Option String
  stop_id : String
  stop_sequence : Int
deriving DecidableEq, Repr, Inhabited

/-- Inner join `pd.merge(trips, stop_times, on=trip_id)`. -/
def tsMerged (ts : List TripRow) (sts : List StopTimeRow) : List TsRow :=
  ts.flatMap (fun t =>
    (sts.filter (fun st => st.trip_id = t.trip_id)).map (fun st =>
      { trip_id := t.trip_id
        route_id := t.route_id
        service_id := t.service_id
        direction_id := t.direction_id
        shape_id := t.shape_id
        arrival_time := st.arrival_time
        departure_time := st.departure_time
        stop_id := st.stop_id
        stop_sequence := st.stop_sequence }))

/-- The trips↔stop_times rows after the optional service_id filter. -/
def tsFiltered (ts : List TripRow) (sts : List StopTimeRow)
    (service_id : Option String) : List TsRow :=
  match service_id with
  | none => tsMerged ts sts
  | some sid => (tsMerged ts sts).filter (fun r => r.service_id = sid)

/-- Output of `calculate_system_metrics`: the dictionary of counts, with the
shapes entry present only when the shapes table is. -/
structure SystemMetricsOut where
  total_routes : Nat
  total_stops : Nat
  total_trips : Nat
  total_shapes : Option Nat
deriving DecidableEq, Repr

/-- Embedded from `calculate_system_metrics` (lines 6-27). -/
def calculate_system_metrics (g : GtfsData) : Except PyError SystemMetricsOut := do
  let rs ← getTable g.routes "routes"
  let ss ← getTable g.stops "stops"
  let ts ← getTable g.trips "trips"
  let shapes : Option Nat :=
    match g.shapes with
    | none => none
    | some shp => some ((shp.map (fun s => s.shape_id)).dedup).length
  return { total_routes := rs.length
           total_stops := ss.length
           total_trips := ts.length
           total_shapes := shapes }

/-- Output of `calculate_service_hours`. -/
structure ServiceHoursOut where
  total_revenue_hours : Rat
  avg_trip_duration_min : Option Rat
  total_trips : Nat
deriving DecidableEq, Repr

/-- Embedded from `calculate_service_hours` (lines 80-136).  The guarded time
codec never raises, so only table access can fail.  Sorting by trip_id before
the key-based groupby does not change group contents and is dropped. -/
def calculate_service_hours (g : GtfsData) (service_id : Option String) :
    Except PyError ServiceHoursOut := do
  let ts ← getTable g.trips "trips"
  let sts ← getTable g.stop_times "stop_times"
  let rows := tsFiltered ts sts service_id
  let tripTimes : List (Option Int × Option Int) :=
    (groupsBy (fun r => r.trip_id) rows).map (fun g =>
      (minOptInt (g.2.map (fun r => ServiceHours.time_to_seconds r.departure_time)),
       maxOptInt (g.2.map (fun r => ServiceHours.time_to_seconds r.arrival_time))))
  let durations : List (Option Rat) := tripTimes.map (fun p =>
    match p.1, p.2 with
    | some s, some e => some (((e - s : Int) : Rat) / 60)
    | _, _ => none)
  return { total_revenue_hours := (durations.filterMap id).sum / 60
           avg_trip_duration_min := meanOpt durations
           total_trips := tripTimes.length }

/-- Output row of `calculate_stop_metrics`. -/
structure StopMetricsRow where
  stop_id : String
  n_trips : Nat
  n_routes : Nat
  stop_name : String
  stop_lat : Rat
  stop_lon : Rat
deriving DecidableEq, Repr

/-- Embedded from `calculate_stop_metrics` (lines 139-178): per-stop distinct
trip and route counts, inner-joined with the stops table, sorted by trip count
descending. -/
def calculate_stop_metrics (g : GtfsData) (service_id : Option String) :
    Except PyError (List StopMetricsRow) := do
  let ts ← getTable g.trips "trips"
  let sts ← getTable g.stop_times "stop_times"
  let rows := tsFiltered ts sts service_id
  let grouped : List (String × Nat × Nat) :=
    (groupsBy (fun r => r.stop_id) rows).map (fun g =>
      (g.1,
       ((g.2.map (fun r => r.trip_id)).dedup).length,
       ((g.2.map (fun r => r.route_id)).dedup).length))
  let stops ← getTable g.stops "stops"
  let merged := grouped.flatMap (fun t =>
    (stops.filter (fun s => s.stop_id = t.1)).map (fun s =>
      { stop_id := t.1
        n_trips := t.2.1
        n_routes := t.2.2
        stop_name := s.stop_name
        stop_lat := s.stop_lat
        stop_lon := s.stop_lon : StopMetricsRow }))
  return sortByLe (fun a b => decide (b.n_trips ≤ a.n_trips)) merged

/-- Hour extraction of `calculate_trips_by_hour` (line 204):
`int(x.split(':')[0])`, raising on a missing cell or a non-numeric field. -/
def hourOf (x : Option String) : Except PyError Int :=
  match x with
  | none => .error (.attributeError "float object has no attribute split")
  | some s =>
    match pyIntChars ((splitOnChar ':' s.toList).headD []) with
    | none => .error (.valueError "invalid literal for int")
    | some h => .ok h

/-- Output row of `calculate_trips_by_hour`. -/
structure HourRow where
  hour : Int
  trip_count : Nat
deriving DecidableEq, Repr

/-- Pure tail of `calculate_trips_by_hour` (lines 207-214): distinct-trip
count per hour value, sorted by hour. -/
def tbhAggregate (withHour : List (TsRow × Int)) : List HourRow :=
  sortByLe (fun a b => decide (a.hour ≤ b.hour))
    ((groupsBy (fun p => p.2) withHour).map (fun g =>
      { hour := g.1
        trip_count := ((g.2.map (fun p => p.1.trip_id)).dedup).length : HourRow }))

/-- Embedded from `calculate_trips_by_hour` (lines 180-216): first stop per
trip, departure hour, distinct-trip count per hour, sorted by hour. -/
def calculate_trips_by_hour (g : GtfsData) (service_id : Option String) :
    Except PyError (List HourRow) := do
  let ts ← getTable g.trips "trips"
  let sts ← getTable g.stop_times "stop_times"
  let rows := tsFiltered ts sts service_id
  let fs := firstStopPerTrip (fun r => r.trip_id) (fun r => r.stop_sequence) rows
  let withHour ← mapME (fun r => (hourOf r.departure_time).map (fun h => (r, h))) fs
  return tbhAggregate withHour

/-- Models `pd.to_timedelta` applied to the departure_time column in
`calculate_peak_offpeak_metrics`: a missing cell becomes NaT (`none`) without
raising, a parseable HH:MM:SS string becomes its total seconds, anything else
raises.  (The real pandas parser accepts further formats; every theorem below
conditions on the call succeeding, so the exact accepted language is
immaterial.) -/
def to_timedelta (x : Option String) : Except PyError (Option Int) :=
  match x with
  | none => .ok none
  | some s =>
    match parseHMS s with
    | none => .error (.valueError "could not convert to timedelta")
    | some (h, m, sec) => .ok (some (h * 3600 + m * 60 + sec))

/-- Embedded from `get_time_block` (lines 230-272) on a duration from midnight
in seconds.  A NaT input (`none`) fails every timedelta comparison in Python,
falling through to the final else branch. -/
def get_time_block (t : Option Int) : String :=
  match t with
  | none => "Pre-Early AM/Other"
  | some secs =>
    if 4 * 3600 ≤ secs ∧ secs < 6 * 3600 then "Early AM"
    else if 6 * 3600 ≤ secs ∧ secs < 9 * 3600 then "AM Peak"
    else if 9 * 3600 ≤ secs ∧ secs < 15 * 3600 then "Base"
    else if 15 * 3600 ≤ secs ∧ secs < 18 * 3600 then "PM Peak"
    else if 18 * 3600 ≤ secs ∧ secs < 22 * 3600 then "Evening"
    else if 22 * 3600 ≤ secs then "Late Evening"
    else "Pre-Early AM/Other"

/-- The fixed display order of the seven time blocks (line 310). -/
def periodOrder : List String :=
  ["Pre-Early AM/Other", "Early AM", "AM Peak", "Base", "PM Peak", "Evening", "Late Evening"]

/-- Output row of `calculate_peak_offpeak_metrics`. -/
structure PeakRow where
  time_block : String
  n_trips : Nat
  n_routes : Nat
  pct_of_service : Rat
deriving DecidableEq, Repr

/-- Stage of `calculate_peak_offpeak_metrics` up to and including the
departure-time conversion (lines 275-287): first stop per trip of the filtered
join, paired with the parsed duration. -/
def peakPairs (g : GtfsData) (service_id : Option String) :
    Except PyError (List (TsRow × Option Int)) := do
  let ts ← getTable g.trips "trips"
  let sts ← getTable g.stop_times "stop_times"
  let rows := tsFiltered ts sts service_id
  let fs := firstStopPerTrip (fun r => r.trip_id) (fun r => r.stop_sequence) rows
  mapME (fun r => (to_timedelta r.departure_time).map (fun v => (r, v))) fs

/-- Pure tail of `calculate_peak_offpeak_metrics` (lines 290-318): block
assignment, per-block distinct trip and route counts, percentage of the total,
rows ordered by the fixed block sequence. -/
def peakAggregate (prs : List (TsRow × Option Int)) : List PeakRow :=
  let total := ((prs.map (fun p => p.1.trip_id)).dedup).length
  let agg := (groupsBy (fun p => get_time_block p.2) prs).map (fun g =>
    let ntr := ((g.2.map (fun p => p.1.trip_id)).dedup).length
    { time_block := g.1
      n_trips := ntr
      n_routes := ((g.2.map (fun p => p.1.route_id)).dedup).length
      pct_of_service := round2 ((ntr : Rat) / (total : Rat) * 100) : PeakRow })
  sortByLe (fun a b => decide (periodOrder.indexOf a.time_block ≤ periodOrder.indexOf b.time_block)) agg

/-- Embedded from `calculate_peak_offpeak_metrics` (lines 218-318). -/
def calculate_peak_offpeak_metrics (g : GtfsData) (service_id : Option String) :
    Except PyError (List PeakRow) :=
  (peakPairs g service_id).map peakAggregate

/-- Row of the three-way join trips↔stop_times↔stops built inside
`get_route_details`. -/
structure RdRow where
  trip_id : String
  route_id : String
  service_id : String
  direction_id : Int
  shape_id : String
  arrival_time : Option String
  departure_time : Option String
  stop_id : String
  stop_sequence : Int
  stop_name : String
  stop_lat : Rat
  stop_lon : Rat
deriving DecidableEq, Repr, Inhabited

/-- Row of the ordered unique stop list of `get_route_details`. -/
structure StopAggRow where
  stop_id : String
  stop_name : String
  stop_lat : Rat
  stop_lon : Rat
  stop_sequence : Int
deriving DecidableEq, Repr

/-- Output of `get_route_details`. -/
structure RouteDetailsOut where
  route_id : String
  short_name : String
  long_name : String
  route_type : Int
  num_stops : Nat
  num_trips : Nat
  avg_headway_min : Option Rat
  first_trip : Option String
  last_trip : Option String
  service_span_hours : Option Rat
  stops : List StopAggRow
  departure_times : List (Option String)
  shape_coords : Option (List (Rat × Rat))
deriving DecidableEq, Repr

/-- Trips of the requested route, optionally narrowed to one service
(`get_route_details` lines 358-363). -/
def rdFilteredTrips (ts : List TripRow) (route_id : String)
    (service_id : Option String) : List TripRow :=
  let byRoute := ts.filter (fun t => t.route_id = route_id)
  match service_id with
  | none => byRoute
  | some sid => byRoute.filter (fun t => t.service_id = sid)

/-- The two merges of `get_route_details` (lines 366-367): filtered trips with
stop_times on trip_id, then with stops on stop_id. -/
def rdMerged (ftrips : List TripRow) (sts : List StopTimeRow)
    (stops : List StopRow) : List RdRow :=
  (tsMerged ftrips sts).flatMap (fun r =>
    (stops.filter (fun s => s.stop_id = r.stop_id)).map (fun s =>
      { trip_id := r.trip_id
        route_id := r.route_id
        service_id := r.service_id
        direction_id := r.direction_id
        shape_id := r.shape_id
        arrival_time := r.arrival_time
        departure_time := r.departure_time
        stop_id := r.stop_id
        stop_sequence := r.stop_sequence
        stop_name := s.stop_name
        stop_lat := s.stop_lat
        stop_lon := s.stop_lon }))

/-- Ordered unique stop list (lines 370-381): group by stop_id, keep first
name/lat/lon and minimum stop_sequence, order by that minimum. -/
def rdStopsList (merged : List RdRow) : List StopAggRow :=
  sortByLe (fun a b => decide (a.stop_sequence ≤ b.stop_sequence))
    ((groupsBy (fun r => r.stop_id) merged).map (fun g =>
      { stop_id := g.1
        stop_name := (g.2.headD default).stop_name
        stop_lat := (g.2.headD default).stop_lat
        stop_lon := (g.2.headD default).stop_lon
        stop_sequence := minIntD (g.2.map (fun r => r.stop_sequence)) 0 : StopAggRow }))

/-- First stop of each trip with its parsed departure minutes, sorted by the
minutes column with nulls last (lines 384-390). -/
def rdFirstSorted (ftrips : List TripRow) (sts : List StopTimeRow)
    (stops : List StopRow) : List (RdRow × Option Rat) :=
  let fs := firstStopPerTrip (fun r => r.trip_id) (fun r => r.stop_sequence)
    (rdMerged ftrips sts stops)
  sortByLe (fun a b => optRatLe a.2 b.2)
    (fs.map (fun r => (r, RouteDetails.time_to_minutes r.departure_time)))

/-- The pooled per-direction headway sample of `get_route_details`
(lines 396-407): for each direction_id in order of appearance, sort that
direction's first stops by departure minutes, take successive differences,
drop nulls, drop negatives, and concatenate. -/
def rdPooled (ftrips : List TripRow) (sts : List StopTimeRow)
    (stops : List StopRow) : List Rat :=
  let fs := rdFirstSorted ftrips sts stops
  ((fs.map (fun p => p.1.direction_id)).dedup).flatMap (fun d =>
    let ds := sortByLe (fun a b => optRatLe a.2 b.2)
      (fs.filter (fun p => p.1.direction_id = d))
    ((diffsOptRat (ds.map (fun p => p.2))).filterMap id).filter (fun h => decide (0 ≤ h)))

/-- The pooled average headway (lines 410-413): mean of the pooled sample,
rounded to 2 decimals, null when the sample is empty. -/
def rdAvgHeadway (ftrips : List TripRow) (sts : List StopTimeRow)
    (stops : List StopRow) : Option Rat :=
  let pooled := rdPooled ftrips sts stops
  if pooled.length = 0 then none
  else some (round2 (pooled.sum / (pooled.length : Rat)))

/-- Rounding of a nullable value, the `round(v, 2) if pd.notna(v) else None`
pattern of `get_route_details`. -/
def optRound2 (a : Option Rat) : Option Rat :=
  match a with
  | some v => some (round2 v)
  | none => none

/-- Mode of a string column (pandas `mode()[0]`): among the most frequent
values, pandas returns them sorted ascending, so `[0]` is the smallest. -/
def pdMode (l : List String) : Option String :=
  match l with
  | [] => none
  | _ =>
    let counts := l.dedup.map (fun k => (k, l.count k))
    let maxc := (counts.map (fun p => p.2)).foldl max 0
    minStringOpt ((counts.filter (fun p => p.2 = maxc)).map (fun p => p.1))

/-- Shape polyline of the route's dominant shape_id (lines 429-442): only when
the shapes table is present and nonempty and the filtered trips reference at
least one shape. -/
def rdShapeCoords (shapes : Option (List ShapeRow)) (ftrips : List TripRow) :
    Option (List (Rat × Rat)) :=
  match shapes with
  | none => none
  | some shp =>
    if shp.isEmpty then none
    else
      let shape_ids := (ftrips.map (fun t => t.shape_id)).dedup
      if shape_ids.isEmpty then none
      else
        match (if ftrips.length > 0 then pdMode (ftrips.map (fun t => t.shape_id))
               else shape_ids.head?) with
        | none => none
        | some mid =>
          let sd := sortByLe (fun a b => decide (a.shape_pt_sequence ≤ b.shape_pt_sequence))
            (shp.filter (fun s => s.shape_id = mid))
          some (sd.map (fun s => (s.shape_pt_lat, s.shape_pt_lon)))

/-- Embedded from `get_route_details` (lines 320-461).  The route lookup is the
only statement before the trips access, so an unknown route_id raises the
ValueError first; the guarded time codec never raises afterwards. -/
def get_route_details (g : GtfsData) (route_id : String)
    (service_id : Option String) : Except PyError RouteDetailsOut := do
  let routes ← getTable g.routes "routes"
  match routes.filter (fun r => r.route_id = route_id) with
  | [] => throw (PyError.valueError ("Route " ++ route_id ++ " does not exist"))
  | row :: _ =>
    let ts ← getTable g.trips "trips"
    let ftrips := rdFilteredTrips ts route_id service_id
    let sts ← getTable g.stop_times "stop_times"
    let stops ← getTable g.stops "stops"
    let merged := rdMerged ftrips sts stops
    let fs := rdFirstSorted ftrips sts stops
    let avg := rdAvgHeadway ftrips sts stops
    let firstT := minStringOpt (fs.filterMap (fun p => p.1.departure_time))
    let lastT := maxStringOpt (fs.filterMap (fun p => p.1.departure_time))
    let span : Option Rat :=
      match RouteDetails.time_to_minutes firstT, RouteDetails.time_to_minutes lastT with
      | some fm, some lm => some ((lm - fm) / 60)
      | _, _ => none
    return { route_id := route_id
             short_name := row.route_short_name
             long_name := row.route_long_name
             route_type := row.route_type
             num_stops := ((merged.map (fun r => r.stop_id)).dedup).length
             num_trips := ((ftrips.map (fun t => t.trip_id)).dedup).length
             avg_headway_min := optRound2 avg
             first_trip := firstT
             last_trip := lastT
             service_span_hours := optRound2 span
             stops := rdStopsList merged
             departure_times := fs.map (fun p => p.1.departure_time)
             shape_coords := rdShapeCoords g.shapes ftrips }

/- Test fixtures: small concrete table sets used by the closed theorems and
witnesses below. -/

/-- Route R1 of the spec's concrete scenario. -/
def r1 : RouteRow :=
  { route_id := "R1", route_short_name := "1", route_long_name := "One", route_type := 3 }

/-- Trip T1 of the spec's concrete scenario (route R1, service S1). -/
def t1 : TripRow :=
  { trip_id := "T1", route_id := "R1", service_id := "S1", direction_id := 0, shape_id := "SH1" }

/-- Trip T2 of the spec's concrete scenario (route R1, service S1). -/
def t2 : TripRow :=
  { trip_id := "T2", route_id := "R1", service_id := "S1", direction_id := 0, shape_id := "SH1" }

/-- Trip T3 of the spec's concrete scenario (route R1, service S2). -/
def t3 : TripRow :=
  { trip_id := "T3", route_id := "R1", service_id := "S2", direction_id := 1, shape_id := "SH1" }

/-- First-stop row of T1, departing 08:00:00. -/
def st1 : StopTimeRow :=
  { trip_id := "T1", arrival_time := some "08:00:00", departure_time := some "08:00:00",
    stop_id := "A", stop_sequence := 1 }

/-- First-stop row of T2, departing 08:30:00. -/
def st2 : StopTimeRow :=
  { trip_id := "T2", arrival_time := some "08:30:00", departure_time := some "08:30:00",
    stop_id := "A", stop_sequence := 1 }

/-- First-stop row of T3, departing 08:10:00. -/
def st3 : StopTimeRow :=
  { trip_id := "T3", arrival_time := some "08:10:00", departure_time := some "08:10:00",
    stop_id := "A", stop_sequence := 1 }

/-- Stop A. -/
def stopA : StopRow := { stop_id := "A", stop_name := "Alpha", stop_lat := 1, stop_lon := 2 }

/-- Table set of the spec's concrete scenario (section 8, property 6). -/
def gScenario : GtfsData :=
  { routes := some [r1], trips := some [t1, t2, t3], stop_times := some [st1, st2, st3] }

/-- The scenario tables extended with a stops table, for route-detail calls. -/
def gScenarioStops : GtfsData :=
  { routes := some [r1], trips := some [t1, t2, t3], stop_times := some [st1, st2, st3],
    stops := some [stopA] }

/-- Monday 2025-12-22. -/
def d1 : Date := { year := 2025, month := 12, day := 22 }

/-- Calendar row: service S1 runs every weekday through 2025. -/
def calS1 : CalendarRow :=
  { service_id := "S1", monday := 1, tuesday := 1, wednesday := 1, thursday := 1, friday := 1,
    saturday := 0, sunday := 0,
    start_date := { year := 2025, month := 1, day := 1 },
    end_date := { year := 2025, month := 12, day := 31 } }

/-- Exception row: service S2 added on 2025-12-22. -/
def cdS2 : CalendarDateRow := { service_id := "S2", date := d1, exception_type := 1 }

/-- Table set with a calendar and one matching type-1 exception. -/
def gCal : GtfsData := { calendar := some [calS1], calendar_dates := some [cdS2] }

/-- The same calendar with no calendar_dates table. -/
def gCalNoExc : GtfsData := { calendar := some [calS1] }

/-- Scenario tables with one empty departure_time cell, for the time-codec
error theorem: T2's first stop departs at the empty string. -/
def gBadTime : GtfsData :=
  { routes := some [r1], trips := some [t1, t2, t3],
    stop_times := some [st1,
      { trip_id := "T2", arrival_time := some "08:30:00", departure_time := some "",
        stop_id := "A", stop_sequence := 1 }, st3] }

/-- Second stop_times row of T1 sharing the minimal stop_sequence 1. -/
def stB1 : StopTimeRow :=
  { trip_id := "T1", arrival_time := some "09:00:00", departure_time := some "09:00:00",
    stop_id := "B", stop_sequence := 1 }

/-- Later stop_times row of T1. -/
def stC2 : StopTimeRow :=
  { trip_id := "T1", arrival_time := some "09:30:00", departure_time := some "09:30:00",
    stop_id := "C", stop_sequence := 2 }

/-- Stop_times table with a duplicated minimal stop_sequence for T1. -/
def stsDup : List StopTimeRow := [st1, stB1, stC2]

/-- Table set for the stop-dedup theorem: trip T1 has two stop_times rows with
the identical minimal stop_sequence 1 plus a later row. -/
def gDupSeq : GtfsData :=
  { routes := some [r1], trips := some [t1], stop_times := some stsDup }

/-- Merged first-stop pairs of the scenario tables as `peakPairs` returns them
(durations 28800, 30600 and 29400 seconds). -/
def pairsScenario : List (TsRow × Option Int) :=
  [({ trip_id := "T1", route_id := "R1", service_id := "S1", direction_id := 0,
      shape_id := "SH1", arrival_time := some "08:00:00", departure_time := some "08:00:00",
      stop_id := "A", stop_sequence := 1 }, some 28800),
   ({ trip_id := "T2", route_id := "R1", service_id := "S1", direction_id := 0,
      shape_id := "SH1", arrival_time := some "08:30:00", departure_time := some "08:30:00",
      stop_id := "A", stop_sequence := 1 }, some 30600),
   ({ trip_id := "T3", route_id := "R1", service_id := "S2", direction_id := 1,
      shape_id := "SH1", arrival_time := some "08:10:00", departure_time := some "08:10:00",
      stop_id := "A", stop_sequence := 1 }, some 29400)]

/-- The single peak/off-peak output row of the scenario tables. -/
def amPeakRow : PeakRow :=
  { time_block := "AM Peak", n_trips := 3, n_routes := 1, pct_of_service := 100 }

/-- Table set with a single trip on R1, for the single-trip-null theorem. -/
def gSingle : GtfsData :=
  { routes := some [r1], trips := some [t1], stop_times := some [st1] }

/-- Table set whose routes table is present but trips table is absent, for the
error-taxonomy counterexample. -/
def gNoTrips : GtfsData := { routes := some [r1] }

/-- Membership of a table name among the absent required tables of a table
set: the error a metrics function reports must name such a table. -/
def tableAbsent (g : GtfsData) (t : String) : Prop :=
  (t = "routes" ∧ g.routes = none) ∨ (t = "stops" ∧ g.stops = none) ∨
  (t = "trips" ∧ g.trips = none) ∨ (t = "stop_times" ∧ g.stop_times = none)

/-- Successive differences of a plain value list, for the spec-side headway
formulation. -/
def diffPairs (l : List Rat) : List Rat :=
  List.zipWith (fun a b => b - a) l l.tail

/-- Written from the spec (section 4.4 routeDetails, and testable property 2):
headways are computed independently within each direction_id — the successive
differences of that direction's parsed first-stop departure minutes taken in
ascending order — negative differences are excluded, and the surviving values
of all directions are pooled into one sample (to be averaged afterwards,
rather than averaging per-direction means).  Invalid (unparseable) departure
times contribute no value. -/
def pooledHeadwaysSpec (fs : List (RdRow × Option Rat)) : List Rat :=
  ((fs.map (fun p => p.1.direction_id)).dedup).flatMap (fun d =>
    let vals := sortByLe (fun a b => decide (a ≤ b))
      ((fs.filter (fun p => p.1.direction_id = d)).filterMap (fun p => p.2))
    (diffPairs vals).filter (fun h => decide (0 ≤ h)))

end GTFS

/- Lemma layer: generic facts about the list combinators of the embedding. -/

namespace GTFS

theorem insertLe_perm (le : α → α → Bool) (x : α) (l : List α) :
    (insertLe le x l).Perm (x :: l) := by
  induction l with
  | nil => exact List.Perm.refl _
  | cons y ys ih =>
    unfold insertLe
    cases le x y with
    | true => exact List.Perm.refl _
    | false =>
      simp only [Bool.false_eq_true, if_false]
      exact (ih.cons y).trans (List.Perm.swap x y ys)

theorem sortByLe_perm (le : α → α → Bool) (l : List α) :
    (sortByLe le l).Perm l := by
  induction l with
  | nil => exact List.Perm.refl _
  | cons x xs ih => exact (insertLe_perm le x (sortByLe le xs)).trans (ih.cons x)

theorem minBy_mem {f : α → Int} : ∀ {l : List α} {x : α}, minBy f l = some x → x ∈ l := by
  intro l
  induction l with
  | nil => intro x h; simp [minBy] at h
  | cons a as ih =>
    intro x h
    unfold minBy at h
    cases hm : minBy f as with
    | none =>
      rw [hm] at h
      exact (Option.some_inj.mp h) ▸ List.mem_cons_self a as
    | some y =>
      rw [hm] at h
      dsimp only at h
      by_cases hle : f a ≤ f y
      · rw [if_pos hle] at h
        exact (Option.some_inj.mp h) ▸ List.mem_cons_self a as
      · rw [if_neg hle] at h
        exact List.mem_cons_of_mem a (ih ((Option.some_inj.mp h) ▸ hm))

theorem minBy_isSome {f : α → Int} {l : List α} (h : l ≠ []) : ∃ x, minBy f l = some x := by
  cases l with
  | nil => exact absurd rfl h
  | cons a as =>
    unfold minBy
    cases minBy f as with
    | none => exact ⟨a, rfl⟩
    | some y =>
      by_cases hle : f a ≤ f y
      · exact ⟨a, by dsimp only; rw [if_pos hle]⟩
      · exact ⟨y, by dsimp only; rw [if_neg hle]⟩

theorem fspt_map_eq (tid : α → String) (seq : α → Int) (rows : List α) :
    (firstStopPerTrip tid seq rows).map tid = (rows.map tid).dedup := by
  unfold firstStopPerTrip
  have haux : ∀ ts : List String, (∀ t ∈ ts, ∃ r ∈ rows, tid r = t) →
      (ts.filterMap (fun t => minBy seq (rows.filter (fun r => tid r = t)))).map tid = ts := by
    intro ts hts
    induction ts with
    | nil => rfl
    | cons t ts ih =>
      obtain ⟨r, hr, hrt⟩ := hts t (List.mem_cons_self t ts)
      have hrf : r ∈ rows.filter (fun r => tid r = t) :=
        List.mem_filter.mpr ⟨hr, by simp [hrt]⟩
      obtain ⟨x, hx⟩ := minBy_isSome (f := seq) (List.ne_nil_of_mem hrf)
      have hxt : tid x = t := by
        have := List.mem_filter.mp (minBy_mem hx)
        simpa using this.2
      rw [List.filterMap_cons]
      rw [hx]
      simp only [List.map_cons, hxt]
      rw [ih (fun u hu => hts u (List.mem_cons_of_mem t hu))]
  apply haux
  intro t ht
  obtain ⟨r, hr, hrt⟩ := List.mem_map.mp (List.mem_dedup.mp ht)
  exact ⟨r, hr, hrt⟩

theorem fspt_tid_nodup (tid : α → String) (seq : α → Int) (rows : List α) :
    ((firstStopPerTrip tid seq rows).map tid).Nodup := by
  rw [fspt_map_eq]
  exact List.nodup_dedup _

theorem fspt_mem {tid : α → String} {seq : α → Int} {rows : List α} {x : α}
    (h : x ∈ firstStopPerTrip tid seq rows) : x ∈ rows := by
  unfold firstStopPerTrip at h
  obtain ⟨t, _, hmin⟩ := List.mem_filterMap.mp h
  exact (List.mem_filter.mp (minBy_mem hmin)).1

theorem countP_eq_one_of_nodup_mem [DecidableEq κ] {l : List κ} {t0 : κ}
    (hn : l.Nodup) (hm : t0 ∈ l) : l.countP (fun x => decide (x = t0)) = 1 := by
  induction l with
  | nil => cases hm
  | cons a as ih =>
    rw [List.countP_cons]
    rcases List.mem_cons.mp hm with h | h
    · subst h
      have hnot : t0 ∉ as := (List.nodup_cons.mp hn).1
      have hz : as.countP (fun x => decide (x = t0)) = 0 := by
        rw [List.countP_eq_zero]
        intro x hx
        simp only [decide_eq_true_eq]
        intro hxa
        exact hnot (hxa ▸ hx)
      simp [hz]
    · have hne : ¬ (a = t0) := fun he => (List.nodup_cons.mp hn).1 (he ▸ h)
      rw [ih (List.nodup_cons.mp hn).2 h]
      simp [hne]

theorem countP_map_decide [DecidableEq κ] (f : α → κ) (l : List α) (t0 : κ) :
    l.countP (fun r => decide (f r = t0)) = (l.map f).countP (fun x => decide (x = t0)) := by
  rw [List.countP_map]
  rfl

theorem fspt_countP_eq_one (tid : α → String) (seq : α → Int) (rows : List α)
    {t0 : String} (h : t0 ∈ rows.map tid) :
    (firstStopPerTrip tid seq rows).countP (fun r => decide (tid r = t0)) = 1 := by
  rw [countP_map_decide tid _ t0, fspt_map_eq]
  exact countP_eq_one_of_nodup_mem (List.nodup_dedup _) (List.mem_dedup.mpr h)

theorem groupsBy_keys [DecidableEq κ] (key : α → κ) (rows : List α) :
    (groupsBy key rows).map Prod.fst = (rows.map key).dedup := by
  unfold groupsBy
  rw [List.map_map]
  exact List.map_id _ ▸ rfl

theorem mem_groupsBy_iff [DecidableEq κ] {key : α → κ} {rows : List α} {k : κ}
    {g : List α} :
    (k, g) ∈ groupsBy key rows ↔
      k ∈ (rows.map key).dedup ∧ g = rows.filter (fun r => key r = k) := by
  constructor
  · intro h
    obtain ⟨k', hk', heq⟩ := List.mem_map.mp h
    obtain ⟨h1, h2⟩ := Prod.mk.injEq .. ▸ heq
    exact ⟨h1 ▸ hk', h2.symm ▸ h1 ▸ rfl⟩
  · rintro ⟨hk, rfl⟩
    exact List.mem_map.mpr ⟨k, hk, rfl⟩

theorem sum_groupsBy_len [DecidableEq κ] (key : α → κ) (rows : List α) :
    ((groupsBy key rows).map (fun g => g.2.length)).sum = rows.length := by
  unfold groupsBy
  rw [List.map_map]
  have hstep : ((rows.map key).dedup.map ((fun g : κ × List α => g.2.length) ∘
      fun k => (k, rows.filter (fun r => key r = k)))).sum =
      ((rows.map key).dedup.map (fun k => (rows.map key).countP (fun x => decide (x = k)))).sum := by
    apply congrArg
    apply List.map_congr_left
    intro k _
    show (rows.filter (fun r => decide (key r = k))).length = _
    rw [← List.countP_eq_length_filter]
    exact countP_map_decide key rows k
  have hfin : ∀ l : List κ, (l.dedup.map (fun k => l.countP (fun x => decide (x = k)))).sum
      = l.length := by
    intro l
    have hc := List.sum_map_count_dedup_eq_length l
    rw [← hc]
    apply congrArg
    apply List.map_congr_left
    intro k _
    rw [List.count_eq_countP]
    apply List.countP_congr
    intro a _
    simp
  rw [hstep, hfin (rows.map key), List.length_map]

theorem mapME_ok_forall {f : α → Except PyError β} :
    ∀ {xs : List α} {ys : List β}, mapME f xs = .ok ys →
      List.Forall₂ (fun x y => f x = .ok y) xs ys := by
  intro xs
  induction xs with
  | nil =>
    intro ys h
    unfold mapME at h
    cases h
    exact List.Forall₂.nil
  | cons x xs ih =>
    intro ys h
    unfold mapME at h
    cases hfx : f x with
    | error e => rw [hfx] at h; cases h
    | ok v =>
      rw [hfx] at h
      cases hm : mapME f xs with
      | error e => rw [hm] at h; cases h
      | ok vs =>
        rw [hm] at h
        cases h
        exact List.Forall₂.cons hfx (ih hm)

theorem mapME_pair_fst {f : α → Except PyError β} {xs : List α} {ys : List (α × β)}
    (h : mapME (fun r => (f r).map (fun v => (r, v))) xs = .ok ys) :
    ys.map Prod.fst = xs := by
  have hall := mapME_ok_forall h
  clear h
  induction hall with
  | nil => rfl
  | @cons x y xs' ys' hxy htl ih =>
    have hy : y.1 = x := by
      cases hfx : f x with
      | error e =>
        rw [hfx] at hxy
        simp [Except.map] at hxy
      | ok v =>
        rw [hfx] at hxy
        simp only [Except.map] at hxy
        cases hxy
        rfl
    simp only [List.map_cons, hy, ih]

theorem mem_zipWith {f : α → β → γ} :
    ∀ {l1 : List α} {l2 : List β} {x : γ}, x ∈ List.zipWith f l1 l2 →
      ∃ a ∈ l1, ∃ b ∈ l2, x = f a b := by
  intro l1
  induction l1 with
  | nil => intro l2 x h; simp at h
  | cons a as ih =>
    intro l2 x h
    cases l2 with
    | nil => simp at h
    | cons b bs =>
      rw [List.zipWith_cons_cons] at h
      rcases List.mem_cons.mp h with h | h
      · exact ⟨a, List.mem_cons_self a as, b, List.mem_cons_self b bs, h⟩
      · obtain ⟨a', ha', b', hb', hx⟩ := ih h
        exact ⟨a', List.mem_cons_of_mem a ha', b', List.mem_cons_of_mem b hb', hx⟩

theorem filter_eq_singleton_of_countP {p : α → Bool} :
    ∀ {l : List α} {x : α}, l.countP p = 1 → x ∈ l → p x = true → l.filter p = [x] := by
  intro l
  induction l with
  | nil => intro x _ hx; cases hx
  | cons a as ih =>
    intro x hc hx hpx
    rw [List.countP_cons] at hc
    cases hpa : p a with
    | true =>
      rw [hpa] at hc
      simp only [if_true] at hc
      have hz : as.countP p = 0 := by omega
      have hxa : x = a := by
        rcases List.mem_cons.mp hx with h | h
        · exact h
        · exfalso
          have : 0 < as.countP p := List.countP_pos.mpr ⟨x, h, hpx⟩
          omega
      rw [List.filter_cons_of_pos hpa, hxa]
      have : as.filter p = [] := List.filter_eq_nil.mpr (by
        intro y hy hpy
        have : 0 < as.countP p := List.countP_pos.mpr ⟨y, hy, hpy⟩
        omega)
      rw [this]
    | false =>
      rw [hpa] at hc
      simp at hc
      have hxas : x ∈ as := by
        rcases List.mem_cons.mp hx with h | h
        · exact absurd (h ▸ hpx) (by simp [hpa])
        · exact h
      rw [List.filter_cons_of_neg (by simp [hpa])]
      exact ih (by omega) hxas hpx

theorem meanOpt_all_none {l : List (Option Rat)} (h : ∀ x ∈ l, x = none) :
    meanOpt l = none := by
  unfold meanOpt
  have hnil : l.filterMap id = [] := List.filterMap_eq_nil.mpr (by
    intro a ha
    rw [h a ha]
    rfl)
  rw [hnil]
  rfl

theorem sortByLe_map_sum (le : α → α → Bool) (l : List α) (f : α → Nat) :
    ((sortByLe le l).map f).sum = (l.map f).sum :=
  ((sortByLe_perm le l).map f).sum_eq

theorem diffsRat_singleton (x : Rat) : diffsRat [x] = [none] := rfl

end GTFS

/- Unfolding equations for the Except pipelines, given present tables. -/

namespace GTFS

theorem except_bind_pure_eq_map (e : Except PyError α) (f : α → β) :
    Except.bind e (fun x => (pure (f x) : Except PyError β)) = Except.map f e := by
  cases e <;> rfl

theorem calculate_route_frequencies_eq {g : GtfsData} {rs : List RouteRow}
    {ts : List TripRow} {sts : List StopTimeRow} (sid : Option String)
    (hr : g.routes = some rs) (ht : g.trips = some ts) (hs : g.stop_times = some sts) :
    calculate_route_frequencies g sid =
      (mapME (fun r => (RouteFrequencies.time_to_minutes r.departure_time).map (fun v => (r, v)))
        (rfFiltered rs ts sts sid)).map rfAggregate := by
  unfold calculate_route_frequencies
  rw [hr, ht, hs]
  exact except_bind_pure_eq_map _ _

theorem peakPairs_eq {g : GtfsData} {ts : List TripRow} {sts : List StopTimeRow}
    (sid : Option String) (ht : g.trips = some ts) (hs : g.stop_times = some sts) :
    peakPairs g sid =
      mapME (fun r => (to_timedelta r.departure_time).map (fun v => (r, v)))
        (firstStopPerTrip (fun r => r.trip_id) (fun r => r.stop_sequence)
          (tsFiltered ts sts sid)) := by
  unfold peakPairs
  rw [ht, hs]
  rfl

theorem calculate_trips_by_hour_eq {g : GtfsData} {ts : List TripRow}
    {sts : List StopTimeRow} (sid : Option String)
    (ht : g.trips = some ts) (hs : g.stop_times = some sts) :
    calculate_trips_by_hour g sid =
      (mapME (fun r => (hourOf r.departure_time).map (fun h => (r, h)))
        (firstStopPerTrip (fun r => r.trip_id) (fun r => r.stop_sequence)
          (tsFiltered ts sts sid))).map tbhAggregate := by
  unfold calculate_trips_by_hour
  rw [ht, hs]
  exact except_bind_pure_eq_map _ _

end GTFS

/- Claim theorems. -/

namespace GTFS

/-- Claim C1 (code bug evidence).  The spec says `activeServices` applies every
calendar_dates exception for the requested date on top of the base set.  The
source instead rebinds `active_services` from a set to a list before the
exception loop, so the first matching exception row of type 1 or 2 raises
AttributeError: on a calendar whose service S1 is active on Monday 2025-12-22
plus a type-1 exception adding S2 that day, the call raises instead of
returning {S1, S2}; without the exception table the base set is computed as
claimed, and the spec-side resolver applies the exception correctly. -/
theorem C1_calendar_exception_application_crashes :
    get_active_service gCal d1 = .error (.attributeError "list object has no attribute add")
    ∧ get_active_service gCalNoExc d1 = .ok ["S1"]
    ∧ activeServicesSpec gCal d1 = ["S1", "S2"] := by
  refine ⟨rfl, rfl, rfl⟩

/-- Claim C2: on the spec's concrete scenario, `routeFrequencies` filtered to
S1 returns exactly one row for R1 with average headway 30.0, and unfiltered it
pools the three departures 08:00, 08:10, 08:30, giving headways [10, 20] and
average 15.0. -/
theorem C2_route_frequencies_concrete_scenario :
    calculate_route_frequencies gScenario (some "S1") =
      .ok [{ route_id := "R1", route_short_name := "1", route_long_name := "One",
             avg_headway_min := some 30 }]
    ∧ calculate_route_frequencies gScenario none =
      .ok [{ route_id := "R1", route_short_name := "1", route_long_name := "One",
             avg_headway_min := some 15 }] := by
  refine ⟨by with_unfolding_all rfl, by with_unfolding_all rfl⟩

/-- Claim C3 (code bug evidence).  The spec requires every Time Codec
conversion to return null, never raise, on empty, missing or unparseable
input.  The copy inside `calculate_route_frequencies` (`time_to_minutes`,
lines 40-43) has no guard: it raises ValueError on the empty or unparseable
string and AttributeError on a missing cell, and the raise escapes the whole
metrics call (gBadTime differs from the scenario tables only in one empty
departure_time).  The guarded copies in `calculate_service_hours` and
`get_route_details` return null as specified. -/
theorem C3_time_codec_raises_instead_of_null :
    RouteFrequencies.time_to_minutes (some "") = .error (.valueError "could not parse time")
    ∧ RouteFrequencies.time_to_minutes (some "abc") = .error (.valueError "could not parse time")
    ∧ RouteFrequencies.time_to_minutes none =
        .error (.attributeError "float object has no attribute split")
    ∧ ServiceHours.time_to_seconds (some "") = none
    ∧ ServiceHours.time_to_seconds (some "abc") = none
    ∧ ServiceHours.time_to_seconds none = none
    ∧ RouteDetails.time_to_minutes (some "abc") = none
    ∧ calculate_route_frequencies gBadTime none = .error (.valueError "could not parse time") := by
  refine ⟨rfl, rfl, rfl, rfl, rfl, rfl, rfl, rfl⟩

/-- Claim C6: when the routes table is present and contains no row for the
requested route_id, `routeDetails` fails with the NotFoundError (Python
ValueError) naming that route, whatever the other tables hold. -/
theorem C6_route_details_not_found (g : GtfsData) (rid : String) (sid : Option String)
    (rs : List RouteRow) (hr : g.routes = some rs)
    (hnone : rs.filter (fun r => r.route_id = rid) = []) :
    get_route_details g rid sid = .error (.valueError ("Route " ++ rid ++ " does not exist")) := by
  unfold get_route_details
  rw [hr]
  simp [getTable, bind, Except.bind, hnone, throw, throwThe, MonadExceptOf.throw]

/-- Witness for C6 at a concrete input: the scenario tables hold only route
R1, so asking for R9 raises the not-found ValueError. -/
theorem C6_witness :
    gScenario.routes = some [r1]
    ∧ [r1].filter (fun r => r.route_id = "R9") = []
    ∧ get_route_details gScenario "R9" none = .error (.valueError "Route R9 does not exist") :=
  ⟨rfl, by decide, C6_route_details_not_found gScenario "R9" none [r1] rfl (by decide)⟩

end GTFS

namespace GTFS

theorem sum_nunique_groups [DecidableEq κ] (key : TsRow × β → κ) (prs : List (TsRow × β))
    (hnd : (prs.map (fun p => p.1.trip_id)).Nodup) :
    ((groupsBy key prs).map
      (fun grp => ((grp.2.map (fun p => p.1.trip_id)).dedup).length)).sum = prs.length := by
  have hcong : ∀ grp ∈ groupsBy key prs,
      ((grp.2.map (fun p => p.1.trip_id)).dedup).length = grp.2.length := by
    intro grp hgrp
    have hgrp' : (grp.1, grp.2) ∈ groupsBy key prs := by
      rw [Prod.mk.eta]
      exact hgrp
    have h2 := (mem_groupsBy_iff.mp hgrp').2
    have hsub : (grp.2.map (fun p => p.1.trip_id)).Sublist
        (prs.map (fun p => p.1.trip_id)) := by
      rw [h2]
      exact (List.filter_sublist _).map _
    have hnd2 : (grp.2.map (fun p => p.1.trip_id)).Nodup := List.Nodup.sublist hsub hnd
    rw [hnd2.dedup, List.length_map]
  rw [List.map_congr_left hcong]
  exact sum_groupsBy_len key prs

theorem peakAggregate_sum (prs : List (TsRow × Option Int))
    (hnd : (prs.map (fun p => p.1.trip_id)).Nodup) :
    ((peakAggregate prs).map (fun r => r.n_trips)).sum = prs.length := by
  unfold peakAggregate
  rw [sortByLe_map_sum, List.map_map]
  show ((groupsBy (fun p : TsRow × Option Int => get_time_block p.2) prs).map
    (fun grp => ((grp.2.map (fun p => p.1.trip_id)).dedup).length)).sum = prs.length
  exact sum_nunique_groups _ prs hnd

theorem tbhAggregate_sum (wh : List (TsRow × Int))
    (hnd : (wh.map (fun p => p.1.trip_id)).Nodup) :
    ((tbhAggregate wh).map (fun r => r.trip_count)).sum = wh.length := by
  unfold tbhAggregate
  rw [sortByLe_map_sum, List.map_map]
  show ((groupsBy (fun p : TsRow × Int => p.2) wh).map
    (fun grp => ((grp.2.map (fun p => p.1.trip_id)).dedup).length)).sum = wh.length
  exact sum_nunique_groups _ wh hnd

theorem peakAggregate_mem_block (prs : List (TsRow × Option Int)) (b : String) :
    (∃ row ∈ peakAggregate prs, row.time_block = b) ↔
      ∃ p ∈ prs, get_time_block p.2 = b := by
  unfold peakAggregate
  constructor
  · rintro ⟨row, hrow, hb⟩
    rw [(sortByLe_perm _ _).mem_iff] at hrow
    obtain ⟨grp, hgrp, hre⟩ := List.mem_map.mp hrow
    subst hre
    have hk : grp.1 ∈ (prs.map (fun p => get_time_block p.2)).dedup := by
      rw [← groupsBy_keys (fun p : TsRow × Option Int => get_time_block p.2) prs]
      exact List.mem_map.mpr ⟨grp, hgrp, rfl⟩
    obtain ⟨p, hp, hpe⟩ := List.mem_map.mp (List.mem_dedup.mp hk)
    exact ⟨p, hp, by rw [hpe]; exact hb⟩
  · rintro ⟨p, hp, hb⟩
    have hk : b ∈ (prs.map (fun q => get_time_block q.2)).dedup :=
      List.mem_dedup.mpr (List.mem_map.mpr ⟨p, hp, hb⟩)
    have hgrp : (b, prs.filter (fun q => get_time_block q.2 = b)) ∈
        groupsBy (fun q : TsRow × Option Int => get_time_block q.2) prs :=
      mem_groupsBy_iff.mpr ⟨hk, rfl⟩
    refine ⟨{ time_block := b,
              n_trips := (((prs.filter (fun q => get_time_block q.2 = b)).map
                (fun p => p.1.trip_id)).dedup).length,
              n_routes := (((prs.filter (fun q => get_time_block q.2 = b)).map
                (fun p => p.1.route_id)).dedup).length,
              pct_of_service := round2 (((((prs.filter (fun q => get_time_block q.2 = b)).map
                  (fun p => p.1.trip_id)).dedup).length : Rat) /
                (((prs.map (fun p => p.1.trip_id)).dedup).length : Rat) * 100) }, ?_, rfl⟩
    rw [(sortByLe_perm _ _).mem_iff]
    exact List.mem_map.mpr ⟨(b, prs.filter (fun q => get_time_block q.2 = b)), hgrp, rfl⟩

/-- Claim C10: the output of `peakOffPeakMetrics` contains a row for a time
block exactly when at least one first-stop departure (a `peakPairs` element)
falls in that block; blocks with zero trips are omitted, not reported as 0. -/
theorem C10_peak_blocks_present_iff (g : GtfsData) (sid : Option String)
    (prs : List (TsRow × Option Int)) (res : List PeakRow)
    (hp : peakPairs g sid = .ok prs)
    (hres : calculate_peak_offpeak_metrics g sid = .ok res) :
    ∀ b : String, (∃ row ∈ res, row.time_block = b) ↔ ∃ p ∈ prs, get_time_block p.2 = b := by
  have hres2 : res = peakAggregate prs := by
    unfold calculate_peak_offpeak_metrics at hres
    rw [hp] at hres
    simp only [Except.map] at hres
    injection hres with h
    exact h.symm
  subst hres2
  exact peakAggregate_mem_block prs

/-- Witness for C10 on the scenario tables: the single output row is the
AM Peak block, where all three departures land, and no Base row exists. -/
theorem C10_witness :
    peakPairs gScenario none = .ok pairsScenario
    ∧ calculate_peak_offpeak_metrics gScenario none = .ok [amPeakRow]
    ∧ (∃ row ∈ [amPeakRow], row.time_block = "AM Peak")
    ∧ ¬ ∃ row ∈ [amPeakRow], row.time_block = "Base" := by
  have h1 : peakPairs gScenario none = .ok pairsScenario := by with_unfolding_all rfl
  have h2 : calculate_peak_offpeak_metrics gScenario none = .ok [amPeakRow] := by
    with_unfolding_all rfl
  refine ⟨h1, h2, ?_, ?_⟩
  · exact (C10_peak_blocks_present_iff gScenario none pairsScenario [amPeakRow] h1 h2
      "AM Peak").mpr ⟨pairsScenario.headD ⟨default, none⟩, by decide, by decide⟩
  · intro hex
    have := (C10_peak_blocks_present_iff gScenario none pairsScenario [amPeakRow] h1 h2
      "Base").mp hex
    revert this
    decide

/-- Claim C4: `get_time_block` is total into the seven named blocks (so every
first-stop departure offset is claimed by exactly one block), and the
per-block distinct trip counts of `peakOffPeakMetrics` sum to the distinct
trip count of the filtered trips↔stop_times join. -/
theorem C4_peak_partition (g : GtfsData) (sid : Option String) (ts : List TripRow)
    (sts : List StopTimeRow) (prs : List (TsRow × Option Int)) (res : List PeakRow)
    (ht : g.trips = some ts) (hs : g.stop_times = some sts)
    (hp : peakPairs g sid = .ok prs)
    (hres : calculate_peak_offpeak_metrics g sid = .ok res) :
    (∀ t : Option Int, get_time_block t ∈ periodOrder) ∧
    (res.map (fun r => r.n_trips)).sum =
      (((tsFiltered ts sts sid).map (fun r => r.trip_id)).dedup).length := by
  constructor
  · intro t
    cases t with
    | none => simp [get_time_block, periodOrder]
    | some secs =>
      unfold get_time_block
      dsimp only
      split_ifs <;> simp [periodOrder]
  · have hres2 : res = peakAggregate prs := by
      unfold calculate_peak_offpeak_metrics at hres
      rw [hp] at hres
      simp only [Except.map] at hres
      injection hres with h
      exact h.symm
    have hfst : prs.map Prod.fst = firstStopPerTrip (fun r => r.trip_id)
        (fun r => r.stop_sequence) (tsFiltered ts sts sid) := by
      rw [peakPairs_eq sid ht hs] at hp
      exact mapME_pair_fst hp
    have hnd : (prs.map (fun p => p.1.trip_id)).Nodup := by
      have hmm : prs.map (fun p : TsRow × Option Int => p.1.trip_id) =
          (prs.map Prod.fst).map (fun r => r.trip_id) := by
        rw [List.map_map]
        rfl
      rw [hmm, hfst]
      exact fspt_tid_nodup _ _ _
    subst hres2
    rw [peakAggregate_sum prs hnd]
    have hlen : prs.length = (prs.map Prod.fst).length := (List.length_map _ _).symm
    rw [hlen, hfst]
    have := fspt_map_eq (fun r : TsRow => r.trip_id) (fun r => r.stop_sequence)
      (tsFiltered ts sts sid)
    calc (firstStopPerTrip (fun r : TsRow => r.trip_id) (fun r => r.stop_sequence)
            (tsFiltered ts sts sid)).length
        = ((firstStopPerTrip (fun r : TsRow => r.trip_id) (fun r => r.stop_sequence)
            (tsFiltered ts sts sid)).map (fun r => r.trip_id)).length :=
          (List.length_map _ _).symm
      _ = (((tsFiltered ts sts sid).map (fun r => r.trip_id)).dedup).length := by rw [this]

/-- Witness for C4 on the scenario tables: all three trips land in AM Peak and
3 equals the distinct trip count of the filtered join. -/
theorem C4_witness :
    gScenario.trips = some [t1, t2, t3]
    ∧ gScenario.stop_times = some [st1, st2, st3]
    ∧ peakPairs gScenario none = .ok pairsScenario
    ∧ calculate_peak_offpeak_metrics gScenario none = .ok [amPeakRow]
    ∧ ((∀ t : Option Int, get_time_block t ∈ periodOrder) ∧
       (([amPeakRow] : List PeakRow).map (fun r => r.n_trips)).sum =
         (((tsFiltered [t1, t2, t3] [st1, st2, st3] none).map (fun r => r.trip_id)).dedup).length) := by
  have h1 : peakPairs gScenario none = .ok pairsScenario := by with_unfolding_all rfl
  have h2 : calculate_peak_offpeak_metrics gScenario none = .ok [amPeakRow] := by
    with_unfolding_all rfl
  exact ⟨rfl, rfl, h1, h2,
    C4_peak_partition gScenario none [t1, t2, t3] [st1, st2, st3] pairsScenario [amPeakRow]
      rfl rfl h1 h2⟩

/-- Claim C9: when the filtered trips↔stop_times join holds two rows for the
same trip with the same minimal stop_sequence, the first-stop reduction of
`tripsByHour` still selects exactly one row for that trip, and the hourly
counts sum to the distinct trip count (each trip counted once). -/
theorem C9_trips_by_hour_dedup (g : GtfsData) (sid : Option String) (ts : List TripRow)
    (sts : List StopTimeRow) (t : String) (m : Int)
    (ht : g.trips = some ts) (hs : g.stop_times = some sts)
    (hdup : 2 ≤ (tsFiltered ts sts sid).countP
      (fun r => decide (r.trip_id = t ∧ r.stop_sequence = m)))
    (hmin : ∀ r ∈ tsFiltered ts sts sid, r.trip_id = t → m ≤ r.stop_sequence) :
    ((firstStopPerTrip (fun r => r.trip_id) (fun r => r.stop_sequence)
        (tsFiltered ts sts sid)).countP (fun r => decide (r.trip_id = t)) = 1)
    ∧ ∀ res, calculate_trips_by_hour g sid = .ok res →
        (res.map (fun r => r.trip_count)).sum =
          (((tsFiltered ts sts sid).map (fun r => r.trip_id)).dedup).length := by
  constructor
  · have hpos : 0 < (tsFiltered ts sts sid).countP
        (fun r => decide (r.trip_id = t ∧ r.stop_sequence = m)) := by omega
    obtain ⟨r, hr, hpr⟩ := List.countP_pos.mp hpos
    have hrt : r.trip_id = t := by
      simp only [decide_eq_true_eq] at hpr
      exact hpr.1
    exact fspt_countP_eq_one _ _ _ (List.mem_map.mpr ⟨r, hr, hrt⟩)
  · intro res hres
    rw [calculate_trips_by_hour_eq sid ht hs] at hres
    cases hm : mapME (fun r => (hourOf r.departure_time).map (fun h => (r, h)))
        (firstStopPerTrip (fun r => r.trip_id) (fun r => r.stop_sequence)
          (tsFiltered ts sts sid)) with
    | error e =>
      rw [hm] at hres
      simp [Except.map] at hres
    | ok wh =>
      rw [hm] at hres
      simp only [Except.map] at hres
      injection hres with h
      subst h
      have hfst : wh.map Prod.fst = firstStopPerTrip (fun r => r.trip_id)
          (fun r => r.stop_sequence) (tsFiltered ts sts sid) := mapME_pair_fst hm
      have hnd : (wh.map (fun p => p.1.trip_id)).Nodup := by
        have hmm : wh.map (fun p : TsRow × Int => p.1.trip_id) =
            (wh.map Prod.fst).map (fun r => r.trip_id) := by
          rw [List.map_map]
          rfl
        rw [hmm, hfst]
        exact fspt_tid_nodup _ _ _
      rw [tbhAggregate_sum wh hnd]
      have hlen : wh.length = (wh.map Prod.fst).length := (List.length_map _ _).symm
      rw [hlen, hfst]
      calc (firstStopPerTrip (fun r : TsRow => r.trip_id) (fun r => r.stop_sequence)
              (tsFiltered ts sts sid)).length
          = ((firstStopPerTrip (fun r : TsRow => r.trip_id) (fun r => r.stop_sequence)
              (tsFiltered ts sts sid)).map (fun r => r.trip_id)).length :=
            (List.length_map _ _).symm
        _ = (((tsFiltered ts sts sid).map (fun r => r.trip_id)).dedup).length := by
            rw [fspt_map_eq]

/-- Witness for C9 on the duplicated-minimum tables: T1 has two rows with
stop_sequence 1, yet exactly one first-stop row is selected and the single
hour row counts the trip once. -/
theorem C9_witness :
    (2 ≤ (tsFiltered [t1] stsDup none).countP
      (fun r => decide (r.trip_id = "T1" ∧ r.stop_sequence = 1)))
    ∧ ((firstStopPerTrip (fun r => r.trip_id) (fun r => r.stop_sequence)
        (tsFiltered [t1] stsDup none)).countP (fun r => decide (r.trip_id = "T1")) = 1)
    ∧ calculate_trips_by_hour gDupSeq none = .ok [{ hour := 8, trip_count := 1 }]
    ∧ (([({ hour := 8, trip_count := 1 } : HourRow)]).map (fun r => r.trip_count)).sum =
        (((tsFiltered [t1] stsDup none).map (fun r => r.trip_id)).dedup).length := by
  have hc := C9_trips_by_hour_dedup gDupSeq none [t1] stsDup "T1" 1 rfl rfl
    (by decide) (by decide)
  exact ⟨by decide, hc.1, by with_unfolding_all rfl,
    hc.2 [{ hour := 8, trip_count := 1 }] (by with_unfolding_all rfl)⟩

end GTFS

namespace GTFS

theorem rfMerged_decomp {rs : List RouteRow} {ts : List TripRow} {sts : List StopTimeRow}
    {x : RtsRow} (hx : x ∈ rfMerged rs ts sts) :
    ∃ t ∈ ts, x.trip_id = t.trip_id ∧ x.route_id = t.route_id := by
  unfold rfMerged at hx
  obtain ⟨p, hp, hx2⟩ := List.mem_flatMap.mp hx
  obtain ⟨st, _, hxe⟩ := List.mem_map.mp hx2
  obtain ⟨r, _, hp2⟩ := List.mem_flatMap.mp hp
  obtain ⟨t, ht, hpe⟩ := List.mem_map.mp hp2
  subst hpe
  subst hxe
  refine ⟨t, (List.mem_filter.mp ht).1, rfl, ?_⟩
  have hfr := (List.mem_filter.mp ht).2
  simp only [decide_eq_true_eq] at hfr
  exact hfr.symm

theorem rfFiltered_sub_merged {rs : List RouteRow} {ts : List TripRow}
    {sts : List StopTimeRow} {sid : Option String} {x : RtsRow}
    (hx : x ∈ rfFiltered rs ts sts sid) : x ∈ rfMerged rs ts sts := by
  unfold rfFiltered at hx
  cases sid with
  | none => exact hx
  | some s => exact (List.mem_filter.mp hx).1

theorem rfFiltered_trip_coherent {rs : List RouteRow} {ts : List TripRow}
    {sts : List StopTimeRow} {sid : Option String}
    (hnd : (ts.map (fun t => t.trip_id)).Nodup) :
    ∀ a ∈ rfFiltered rs ts sts sid, ∀ b ∈ rfFiltered rs ts sts sid,
      a.trip_id = b.trip_id → a.route_id = b.route_id := by
  intro a ha b hb he
  obtain ⟨ta, hta, hat, har⟩ := rfMerged_decomp (rfFiltered_sub_merged ha)
  obtain ⟨tb, htb, hbt, hbr⟩ := rfMerged_decomp (rfFiltered_sub_merged hb)
  have heq : ta = tb := List.inj_on_of_nodup_map hnd hta htb (by rw [← hat, ← hbt, he])
  rw [har, hbr, heq]

theorem rfAggregate_single_route {rows : List (RtsRow × Rat)} {rid : String}
    (hcoh : ∀ a ∈ rows, ∀ b ∈ rows, a.1.trip_id = b.1.trip_id → a.1.route_id = b.1.route_id)
    (huniq : (((rows.filter (fun p => p.1.route_id = rid)).map
      (fun p => p.1.trip_id)).dedup).length = 1) :
    ∃ row ∈ rfAggregate rows, row.route_id = rid ∧ row.avg_headway_min = none := by
  obtain ⟨t0, ht0⟩ := List.length_eq_one.mp huniq
  have ht0mem : t0 ∈ (rows.filter (fun p => p.1.route_id = rid)).map
      (fun p => p.1.trip_id) := by
    have hm : t0 ∈ ((rows.filter (fun p => p.1.route_id = rid)).map
        (fun p => p.1.trip_id)).dedup := by
      rw [ht0]
      exact List.mem_singleton.mpr rfl
    exact List.mem_dedup.mp hm
  obtain ⟨q0, hq0f, hq0t⟩ := List.mem_map.mp ht0mem
  have hq0 : q0 ∈ rows := (List.mem_filter.mp hq0f).1
  have hq0r : q0.1.route_id = rid := by
    have h := (List.mem_filter.mp hq0f).2
    simpa using h
  have hiff : ∀ p ∈ rows, (p.1.route_id = rid ↔ p.1.trip_id = t0) := by
    intro p hp
    constructor
    · intro hr
      have hmem : p.1.trip_id ∈ ((rows.filter (fun q => q.1.route_id = rid)).map
          (fun q => q.1.trip_id)).dedup :=
        List.mem_dedup.mpr (List.mem_map.mpr
          ⟨p, List.mem_filter.mpr ⟨hp, by simpa using hr⟩, rfl⟩)
      rw [ht0] at hmem
      simpa using hmem
    · intro htid
      have h := hcoh p hp q0 hq0 (by rw [htid, hq0t])
      rw [h, hq0r]
  unfold rfAggregate
  set fs := firstStopPerTrip (fun p : RtsRow × Rat => p.1.trip_id)
    (fun p => p.1.stop_sequence) rows with hfs
  set sorted := sortByLe (fun a b : RtsRow × Rat =>
    if a.1.route_id = b.1.route_id then decide (a.2 ≤ b.2)
    else decide (a.1.route_id < b.1.route_id)) fs with hsorted
  have hcnt_t : fs.countP (fun p => decide (p.1.trip_id = t0)) = 1 :=
    fspt_countP_eq_one _ _ _ (List.mem_map.mpr ⟨q0, hq0, hq0t⟩)
  have hcnt_r : fs.countP (fun p => decide (p.1.route_id = rid)) = 1 := by
    have hcc := List.countP_congr (l := fs)
      (p := fun p : RtsRow × Rat => decide (p.1.route_id = rid))
      (q := fun p : RtsRow × Rat => decide (p.1.trip_id = t0))
      (fun p hp => by simpa using hiff p (fspt_mem hp))
    rw [hcc]
    exact hcnt_t
  have hcnt_s : sorted.countP (fun p => decide (p.1.route_id = rid)) = 1 := by
    rw [(sortByLe_perm _ _).countP_eq]
    exact hcnt_r
  obtain ⟨p0, hp0s, hp0rb⟩ := List.countP_pos.mp (by omega : 0 < sorted.countP
    (fun p => decide (p.1.route_id = rid)))
  have hp0r : p0.1.route_id = rid := by simpa using hp0rb
  have hfilter : sorted.filter (fun p => p.1.route_id = rid) = [p0] :=
    filter_eq_singleton_of_countP hcnt_s hp0s hp0rb
  have hkey : rid ∈ (sorted.map (fun p => p.1.route_id)).dedup :=
    List.mem_dedup.mpr (List.mem_map.mpr ⟨p0, hp0s, hp0r⟩)
  have hgrp : (rid, [p0]) ∈ groupsBy (fun p : RtsRow × Rat => p.1.route_id) sorted :=
    mem_groupsBy_iff.mpr ⟨hkey, hfilter.symm⟩
  have hpair : (p0.1, (none : Option Rat)) ∈ rfWithHeadways sorted := by
    unfold rfWithHeadways
    refine List.mem_flatMap.mpr ⟨(rid, [p0]), hgrp, ?_⟩
    show (p0.1, (none : Option Rat)) ∈
      List.zipWith (fun p h => (p.1, h)) [p0] (diffsRat [p0.2])
    rw [diffsRat_singleton]
    exact List.mem_singleton.mpr rfl
  have hall : ∀ pr ∈ rfWithHeadways sorted, pr.1.route_id = rid → pr = (p0.1, none) := by
    intro pr hpr hprr
    unfold rfWithHeadways at hpr
    obtain ⟨grp, hgrp2, hprz⟩ := List.mem_flatMap.mp hpr
    obtain ⟨q, hq, h2, _, hpre⟩ := mem_zipWith hprz
    have hgrp2' : (grp.1, grp.2) ∈ groupsBy (fun p : RtsRow × Rat => p.1.route_id) sorted := by
      rw [Prod.mk.eta]
      exact hgrp2
    have hgq := (mem_groupsBy_iff.mp hgrp2').2
    have hqf : q ∈ sorted.filter (fun p => p.1.route_id = grp.1) := by
      rw [← hgq]
      exact hq
    have hqr : q.1.route_id = grp.1 := by
      have h := (List.mem_filter.mp hqf).2
      simpa using h
    have hgrid : grp.1 = rid := by
      rw [← hqr]
      rw [hpre] at hprr
      exact hprr
    have hgq2 : grp.2 = [p0] := by
      rw [hgq, hgrid, hfilter]
    rw [hgq2] at hprz
    simp only [List.map_cons, List.map_nil] at hprz
    rw [diffsRat_singleton] at hprz
    simp only [List.zipWith_cons_cons, List.zipWith_nil_right] at hprz
    exact List.mem_singleton.mp hprz
  have hk0 : (rid, p0.1.route_short_name, p0.1.route_long_name) ∈
      ((rfWithHeadways sorted).map (fun p =>
        (p.1.route_id, p.1.route_short_name, p.1.route_long_name))).dedup :=
    List.mem_dedup.mpr (List.mem_map.mpr ⟨(p0.1, none), hpair, by rw [hp0r]⟩)
  have hgrpf : ((rid, p0.1.route_short_name, p0.1.route_long_name),
      (rfWithHeadways sorted).filter (fun p =>
        (p.1.route_id, p.1.route_short_name, p.1.route_long_name) =
          (rid, p0.1.route_short_name, p0.1.route_long_name))) ∈
      groupsBy (fun p : RtsRow × Option Rat =>
        (p.1.route_id, p.1.route_short_name, p.1.route_long_name)) (rfWithHeadways sorted) :=
    mem_groupsBy_iff.mpr ⟨hk0, rfl⟩
  have hmean : meanOpt (((rfWithHeadways sorted).filter (fun p =>
      (p.1.route_id, p.1.route_short_name, p.1.route_long_name) =
        (rid, p0.1.route_short_name, p0.1.route_long_name))).map (fun p => p.2)) = none := by
    apply meanOpt_all_none
    intro x hx
    obtain ⟨y, hy, he⟩ := List.mem_map.mp hx
    have hy1 := (List.mem_filter.mp hy).1
    have hy2 := (List.mem_filter.mp hy).2
    simp only [decide_eq_true_eq] at hy2
    have hyr : y.1.route_id = rid := by
      have := congrArg (fun q : String × String × String => q.1) hy2
      simpa using this
    have := hall y hy1 hyr
    rw [← he, this]
  refine ⟨{ route_id := rid
            route_short_name := p0.1.route_short_name
            route_long_name := p0.1.route_long_name
            avg_headway_min := none }, ?_, rfl, rfl⟩
  rw [(sortByLe_perm _ _).mem_iff]
  refine List.mem_map.mpr ⟨((rid, p0.1.route_short_name, p0.1.route_long_name),
    (rfWithHeadways sorted).filter (fun p =>
      (p.1.route_id, p.1.route_short_name, p.1.route_long_name) =
        (rid, p0.1.route_short_name, p0.1.route_long_name))), hgrpf, ?_⟩
  show ({ route_id := rid
          route_short_name := p0.1.route_short_name
          route_long_name := p0.1.route_long_name
          avg_headway_min := meanOpt (((rfWithHeadways sorted).filter (fun p =>
            (p.1.route_id, p.1.route_short_name, p.1.route_long_name) =
              (rid, p0.1.route_short_name, p0.1.route_long_name))).map (fun p => p.2)) } : FreqRow) = _
  rw [hmean]

end GTFS

namespace GTFS

/-- Output row of `routeFrequencies` on the single-trip tables. -/
def freqSingleRow : FreqRow :=
  { route_id := "R1", route_short_name := "1", route_long_name := "One",
    avg_headway_min := none }

/-- Claim C5: a route with exactly one distinct trip in the filtered
routes↔trips↔stop_times join appears in the `routeFrequencies` output with a
null average headway — retained, not dropped, and not zero.  The trips table
is assumed to keep `trip_id` unique, its declared key (spec section 3). -/
theorem C5_single_trip_route_null (g : GtfsData) (sid : Option String) (rid : String)
    (rs : List RouteRow) (ts : List TripRow) (sts : List StopTimeRow) (out : List FreqRow)
    (hr : g.routes = some rs) (ht : g.trips = some ts) (hs : g.stop_times = some sts)
    (hnd : (ts.map (fun t => t.trip_id)).Nodup)
    (hok : calculate_route_frequencies g sid = .ok out)
    (huniq : ((((rfFiltered rs ts sts sid).filter (fun r => r.route_id = rid)).map
      (fun r => r.trip_id)).dedup).length = 1) :
    ∃ row ∈ out, row.route_id = rid ∧ row.avg_headway_min = none := by
  rw [calculate_route_frequencies_eq sid hr ht hs] at hok
  cases hm : mapME (fun r => (RouteFrequencies.time_to_minutes r.departure_time).map
      (fun v => (r, v))) (rfFiltered rs ts sts sid) with
  | error e =>
    rw [hm] at hok
    simp [Except.map] at hok
  | ok rows =>
    rw [hm] at hok
    simp only [Except.map] at hok
    injection hok with h
    subst h
    have hfst : rows.map Prod.fst = rfFiltered rs ts sts sid := mapME_pair_fst hm
    have hcoh : ∀ a ∈ rows, ∀ b ∈ rows,
        a.1.trip_id = b.1.trip_id → a.1.route_id = b.1.route_id := by
      intro a ha b hb he
      exact rfFiltered_trip_coherent hnd a.1
        (by rw [← hfst]; exact List.mem_map.mpr ⟨a, ha, rfl⟩) b.1
        (by rw [← hfst]; exact List.mem_map.mpr ⟨b, hb, rfl⟩) he
    rw [← hfst] at huniq
    rw [List.map_filter] at huniq
    rw [List.map_map] at huniq
    exact rfAggregate_single_route hcoh huniq

/-- Witness for C5 on the single-trip tables: route R1 has exactly trip T1 and
is returned with a null average headway. -/
theorem C5_witness :
    calculate_route_frequencies gSingle none = .ok [freqSingleRow]
    ∧ ((((rfFiltered [r1] [t1] [st1] none).filter (fun r => r.route_id = "R1")).map
        (fun r => r.trip_id)).dedup).length = 1
    ∧ ∃ row ∈ [freqSingleRow], row.route_id = "R1" ∧ row.avg_headway_min = none := by
  have hok : calculate_route_frequencies gSingle none = .ok [freqSingleRow] := by
    with_unfolding_all rfl
  exact ⟨hok, by decide, C5_single_trip_route_null gSingle none "R1" [r1] [t1] [st1]
    [freqSingleRow] rfl rfl rfl (by decide) hok (by decide)⟩

end GTFS

namespace GTFS

theorem except_ok_bind (a : α) (f : α → Except PyError β) :
    (Except.ok a : Except PyError α) >>= f = f a := rfl

theorem except_error_bind (e : PyError) (f : α → Except PyError β) :
    (Except.error e : Except PyError α) >>= f = Except.error e := rfl

/-- Counterexample to claim C8 as stated: `get_route_details` is a metrics
engine function and the required trips table is absent from this table set,
yet the call fails with the not-found ValueError (the spec's NotFoundError)
naming the unknown route, not with a KeyError (the spec's DataError) naming a
missing table: the route lookup precedes every other table access. -/
theorem C8_counterexample :
    gNoTrips.trips = none
    ∧ get_route_details gNoTrips "X" none = .error (.valueError "Route X does not exist") :=
  ⟨rfl, by with_unfolding_all rfl⟩

/-- Claim C8 (amended): every metrics engine function, when a table it
requires is absent, fails immediately with the KeyError (DataError) naming an
absent required table — except `get_route_details`, which checks the route
lookup first: there the DataError is guaranteed only once the routes table is
present and contains the requested route; with the route absent as well, the
NotFoundError wins. -/
theorem C8_missing_table_error (g : GtfsData) (sid : Option String) (rid : String) :
    ((g.routes = none ∨ g.stops = none ∨ g.trips = none) →
      ∃ t, tableAbsent g t ∧ calculate_system_metrics g = .error (.keyError t))
    ∧ ((g.routes = none ∨ g.trips = none ∨ g.stop_times = none) →
      ∃ t, tableAbsent g t ∧ calculate_route_frequencies g sid = .error (.keyError t))
    ∧ ((g.trips = none ∨ g.stop_times = none) →
      ∃ t, tableAbsent g t ∧ calculate_service_hours g sid = .error (.keyError t))
    ∧ ((g.trips = none ∨ g.stop_times = none ∨ g.stops = none) →
      ∃ t, tableAbsent g t ∧ calculate_stop_metrics g sid = .error (.keyError t))
    ∧ ((g.trips = none ∨ g.stop_times = none) →
      ∃ t, tableAbsent g t ∧ calculate_trips_by_hour g sid = .error (.keyError t))
    ∧ ((g.trips = none ∨ g.stop_times = none) →
      ∃ t, tableAbsent g t ∧ calculate_peak_offpeak_metrics g sid = .error (.keyError t))
    ∧ (g.routes = none → get_route_details g rid sid = .error (.keyError "routes"))
    ∧ (∀ rs, g.routes = some rs → (∃ r ∈ rs, r.route_id = rid) →
      (g.trips = none ∨ g.stop_times = none ∨ g.stops = none) →
      ∃ t, tableAbsent g t ∧ get_route_details g rid sid = .error (.keyError t)) := by
  obtain ⟨gro, gst, gtr, gstt, gc, gcd, gsh⟩ := g
  refine ⟨?_, ?_, ?_, ?_, ?_, ?_, ?_, ?_⟩
  · rintro (h | h | h)
    · subst h
      exact ⟨"routes", Or.inl ⟨rfl, rfl⟩, rfl⟩
    · subst h
      cases gro with
      | none => exact ⟨"routes", Or.inl ⟨rfl, rfl⟩, rfl⟩
      | some rs => exact ⟨"stops", Or.inr (Or.inl ⟨rfl, rfl⟩), rfl⟩
    · subst h
      cases gro with
      | none => exact ⟨"routes", Or.inl ⟨rfl, rfl⟩, rfl⟩
      | some rs =>
        cases gst with
        | none => exact ⟨"stops", Or.inr (Or.inl ⟨rfl, rfl⟩), rfl⟩
        | some ss => exact ⟨"trips", Or.inr (Or.inr (Or.inl ⟨rfl, rfl⟩)), rfl⟩
  · rintro (h | h | h)
    · subst h
      exact ⟨"routes", Or.inl ⟨rfl, rfl⟩, rfl⟩
    · subst h
      cases gro with
      | none => exact ⟨"routes", Or.inl ⟨rfl, rfl⟩, rfl⟩
      | some rs => exact ⟨"trips", Or.inr (Or.inr (Or.inl ⟨rfl, rfl⟩)), rfl⟩
    · subst h
      cases gro with
      | none => exact ⟨"routes", Or.inl ⟨rfl, rfl⟩, rfl⟩
      | some rs =>
        cases gtr with
        | none => exact ⟨"trips", Or.inr (Or.inr (Or.inl ⟨rfl, rfl⟩)), rfl⟩
        | some ts => exact ⟨"stop_times", Or.inr (Or.inr (Or.inr ⟨rfl, rfl⟩)), rfl⟩
  · rintro (h | h)
    · subst h
      exact ⟨"trips", Or.inr (Or.inr (Or.inl ⟨rfl, rfl⟩)), rfl⟩
    · subst h
      cases gtr with
      | none => exact ⟨"trips", Or.inr (Or.inr (Or.inl ⟨rfl, rfl⟩)), rfl⟩
      | some ts => exact ⟨"stop_times", Or.inr (Or.inr (Or.inr ⟨rfl, rfl⟩)), rfl⟩
  · rintro (h | h | h)
    · subst h
      exact ⟨"trips", Or.inr (Or.inr (Or.inl ⟨rfl, rfl⟩)), rfl⟩
    · subst h
      cases gtr with
      | none => exact ⟨"trips", Or.inr (Or.inr (Or.inl ⟨rfl, rfl⟩)), rfl⟩
      | some ts => exact ⟨"stop_times", Or.inr (Or.inr (Or.inr ⟨rfl, rfl⟩)), rfl⟩
    · subst h
      cases gtr with
      | none => exact ⟨"trips", Or.inr (Or.inr (Or.inl ⟨rfl, rfl⟩)), rfl⟩
      | some ts =>
        cases gstt with
        | none => exact ⟨"stop_times", Or.inr (Or.inr (Or.inr ⟨rfl, rfl⟩)), rfl⟩
        | some sts => exact ⟨"stops", Or.inr (Or.inl ⟨rfl, rfl⟩), rfl⟩
  · rintro (h | h)
    · subst h
      exact ⟨"trips", Or.inr (Or.inr (Or.inl ⟨rfl, rfl⟩)), rfl⟩
    · subst h
      cases gtr with
      | none => exact ⟨"trips", Or.inr (Or.inr (Or.inl ⟨rfl, rfl⟩)), rfl⟩
      | some ts => exact ⟨"stop_times", Or.inr (Or.inr (Or.inr ⟨rfl, rfl⟩)), rfl⟩
  · rintro (h | h)
    · subst h
      exact ⟨"trips", Or.inr (Or.inr (Or.inl ⟨rfl, rfl⟩)), rfl⟩
    · subst h
      cases gtr with
      | none => exact ⟨"trips", Or.inr (Or.inr (Or.inl ⟨rfl, rfl⟩)), rfl⟩
      | some ts => exact ⟨"stop_times", Or.inr (Or.inr (Or.inr ⟨rfl, rfl⟩)), rfl⟩
  · intro h
    subst h
    rfl
  · intro rs hrs hfound hdisj
    cases hrs
    have hne : rs.filter (fun r => r.route_id = rid) ≠ [] := by
      intro hnil
      obtain ⟨r, hrm, hre⟩ := hfound
      have hmem : r ∈ rs.filter (fun r => r.route_id = rid) :=
        List.mem_filter.mpr ⟨hrm, by simpa using hre⟩
      rw [hnil] at hmem
      cases hmem
    cases hflt : rs.filter (fun r => r.route_id = rid) with
    | nil => exact absurd hflt hne
    | cons row rest =>
      rcases hdisj with h | h | h
      · subst h
        refine ⟨"trips", Or.inr (Or.inr (Or.inl ⟨rfl, rfl⟩)), ?_⟩
        unfold get_route_details
        simp only [getTable, except_ok_bind]
        rw [hflt]
        rfl
      · subst h
        cases gtr with
        | none =>
          refine ⟨"trips", Or.inr (Or.inr (Or.inl ⟨rfl, rfl⟩)), ?_⟩
          unfold get_route_details
          simp only [getTable, except_ok_bind]
          rw [hflt]
          rfl
        | some ts =>
          refine ⟨"stop_times", Or.inr (Or.inr (Or.inr ⟨rfl, rfl⟩)), ?_⟩
          unfold get_route_details
          simp only [getTable, except_ok_bind]
          rw [hflt]
          rfl
      · subst h
        cases gtr with
        | none =>
          refine ⟨"trips", Or.inr (Or.inr (Or.inl ⟨rfl, rfl⟩)), ?_⟩
          unfold get_route_details
          simp only [getTable, except_ok_bind]
          rw [hflt]
          rfl
        | some ts =>
          cases gstt with
          | none =>
            refine ⟨"stop_times", Or.inr (Or.inr (Or.inr ⟨rfl, rfl⟩)), ?_⟩
            unfold get_route_details
            simp only [getTable, except_ok_bind]
            rw [hflt]
            rfl
          | some sts =>
            refine ⟨"stops", Or.inr (Or.inl ⟨rfl, rfl⟩), ?_⟩
            unfold get_route_details
            simp only [getTable, except_ok_bind]
            rw [hflt]
            rfl

/-- Witness for the amended C8: with an empty table set every function reports
a missing required table, starting with the first one it touches. -/
theorem C8_witness :
    (({} : GtfsData).routes = none ∨ ({} : GtfsData).stops = none ∨ ({} : GtfsData).trips = none)
    ∧ ∃ t, tableAbsent {} t ∧ calculate_system_metrics {} = .error (.keyError t) := by
  refine ⟨Or.inl rfl, ?_⟩
  exact (C8_missing_table_error {} none "X").1 (Or.inl rfl)

end GTFS

namespace GTFS

theorem flatMap_congr {f h : α → List β} {l : List α} (he : ∀ a ∈ l, f a = h a) :
    l.flatMap f = l.flatMap h := by
  induction l with
  | nil => rfl
  | cons a as ih =>
    simp only [List.flatMap_cons]
    rw [he a (List.mem_cons_self a as), ih (fun b hb => he b (List.mem_cons_of_mem a hb))]

theorem optRatLe_total (a b : Option Rat) : optRatLe a b = true ∨ optRatLe b a = true := by
  cases a <;> cases b <;> simp [optRatLe] <;> exact le_total _ _

theorem optRatLe_trans {a b c : Option Rat} (h1 : optRatLe a b = true)
    (h2 : optRatLe b c = true) : optRatLe a c = true := by
  cases a <;> cases b <;> cases c <;> simp [optRatLe] at * <;> exact le_trans h1 h2

theorem insertLe_pairwise {le : α → α → Bool}
    (htot : ∀ a b, le a b = true ∨ le b a = true)
    (htr : ∀ a b c, le a b = true → le b c = true → le a c = true)
    (x : α) : ∀ {l : List α}, List.Pairwise (fun a b => le a b = true) l →
      List.Pairwise (fun a b => le a b = true) (insertLe le x l) := by
  intro l
  induction l with
  | nil => intro _; exact List.pairwise_singleton _ x
  | cons y ys ih =>
    intro hl
    unfold insertLe
    by_cases hxy : le x y = true
    · rw [if_pos hxy]
      constructor
      · intro z hz
        rcases List.mem_cons.mp hz with rfl | hz'
        · exact hxy
        · exact htr x y z hxy (List.rel_of_pairwise_cons hl hz')
      · exact hl
    · rw [if_neg hxy]
      have hyx : le y x = true := (htot x y).resolve_left hxy
      constructor
      · intro z hz
        have hz' := (insertLe_perm le x ys).mem_iff.mp hz
        rcases List.mem_cons.mp hz' with rfl | hz''
        · exact hyx
        · exact List.rel_of_pairwise_cons hl hz''
      · exact ih (List.pairwise_cons.mp hl).2

theorem sortByLe_pairwise {le : α → α → Bool}
    (htot : ∀ a b, le a b = true ∨ le b a = true)
    (htr : ∀ a b c, le a b = true → le b c = true → le a c = true)
    (l : List α) : List.Pairwise (fun a b => le a b = true) (sortByLe le l) := by
  induction l with
  | nil => exact List.Pairwise.nil
  | cons x xs ih => exact insertLe_pairwise htot htr x ih

theorem all_none_filterMap {l : List (Option Rat)} (h : ∀ x ∈ l, x = none) :
    l.filterMap id = [] :=
  List.filterMap_eq_nil.mpr (fun a ha => by rw [h a ha]; rfl)

theorem sorted_opt_decomp : ∀ {l : List (Option Rat)},
    List.Pairwise (fun a b => optRatLe a b = true) l →
    l = ((l.filterMap id).map some) ++
      List.replicate (l.length - (l.filterMap id).length) none := by
  intro l
  induction l with
  | nil => intro _; rfl
  | cons a rest ih =>
    intro h
    have htail := (List.pairwise_cons.mp h).2
    cases a with
    | some v =>
      have hdec := ih htail
      have hfm : ((some v :: rest : List (Option Rat)).filterMap id) =
          v :: rest.filterMap id := rfl
      rw [hfm]
      simp only [List.map_cons, List.cons_append, List.length_cons]
      rw [Nat.succ_sub_succ]
      exact congrArg (fun t => some v :: t) hdec
    | none =>
      have hall : ∀ x ∈ rest, x = (none : Option Rat) := by
        intro x hx
        have hle := List.rel_of_pairwise_cons h hx
        cases x with
        | none => rfl
        | some w => simp [optRatLe] at hle
      have hfm : ((none :: rest : List (Option Rat)).filterMap id) = [] := by
        apply all_none_filterMap
        intro x hx
        rcases List.mem_cons.mp hx with rfl | hx'
        · rfl
        · exact hall x hx'
      rw [hfm]
      simp only [List.map_nil, List.nil_append, List.length_nil, Nat.sub_zero]
      apply List.eq_replicate_of_mem
      intro b hb
      rcases List.mem_cons.mp hb with rfl | hb'
      · rfl
      · exact hall b hb'

theorem sorted_opt_vals {l : List (Option Rat)}
    (h : List.Pairwise (fun a b => optRatLe a b = true) l) :
    List.Pairwise (fun a b : Rat => a ≤ b) (l.filterMap id) := by
  refine List.Pairwise.filterMap id ?_ h
  intro a a' hle b hb b' hb'
  cases a with
  | none => simp at hb
  | some x =>
    cases a' with
    | none => simp at hb'
    | some y =>
      have hbx : x = b := by simpa using hb
      have hby : y = b' := by simpa using hb'
      subst hbx
      subst hby
      simpa [optRatLe] using hle

theorem diffsOpt_all_none {l : List (Option Rat)} (h : ∀ x ∈ l, x = none) :
    (diffsOptRat l).filterMap id = [] := by
  apply all_none_filterMap
  intro x hx
  unfold diffsOptRat at hx
  cases l with
  | nil => cases hx
  | cons a tail =>
    rcases List.mem_cons.mp hx with rfl | hx'
    · rfl
    · obtain ⟨u, hu, w, hw, hxe⟩ := mem_zipWith hx'
      have hun : u = none := h u hu
      have hwn : w = none := h w (List.mem_cons_of_mem a hw)
      rw [hxe, hun, hwn]

theorem filterMap_diffsOpt : ∀ (vs : List Rat) (k : Nat),
    (diffsOptRat ((vs.map some) ++ List.replicate k none)).filterMap id = diffPairs vs := by
  intro vs
  induction vs with
  | nil =>
    intro k
    apply diffsOpt_all_none
    intro x hx
    simp only [List.map_nil, List.nil_append] at hx
    exact List.eq_of_mem_replicate hx
  | cons v vs' ih =>
    intro k
    cases vs' with
    | nil =>
      show (diffsOptRat (some v :: List.replicate k none)).filterMap id = diffPairs [v]
      have hz : (diffsOptRat (some v :: List.replicate k none)).filterMap id = [] := by
        apply all_none_filterMap
        intro x hx
        unfold diffsOptRat at hx
        rcases List.mem_cons.mp hx with rfl | hx'
        · rfl
        · obtain ⟨u, hu, w, hw, hxe⟩ := mem_zipWith hx'
          have hwn : w = none := List.eq_of_mem_replicate hw
          rw [hxe, hwn]
          cases u <;> rfl
      rw [hz]
      rfl
    | cons w rest =>
      show (diffsOptRat (some v :: some w ::
        (rest.map some ++ List.replicate k none))).filterMap id = diffPairs (v :: w :: rest)
      have hstep : (diffsOptRat (some v :: some w ::
          (rest.map some ++ List.replicate k none))).filterMap id
          = (w - v) :: (diffsOptRat (some w ::
            (rest.map some ++ List.replicate k none))).filterMap id := rfl
      rw [hstep]
      have ih' : (diffsOptRat (some w ::
          (List.map some rest ++ List.replicate k none))).filterMap id =
          diffPairs (w :: rest) := ih k
      rw [ih']
      rfl

theorem round2_int_div (n : Int) : round2 ((n : Rat) / 100) = (n : Rat) / 100 := by
  unfold round2 roundHalfEven
  rw [div_mul_cancel₀ _ (by norm_num : (100 : Rat) ≠ 0)]
  rw [show Rat.floor (n : Rat) = n from rfl]
  rw [sub_self]
  rw [if_pos (by norm_num : (0 : Rat) < 1/2)]

theorem round2_idem (x : Rat) : round2 (round2 x) = round2 x :=
  round2_int_div (roundHalfEven (x * 100))

end GTFS

namespace GTFS

theorem rd_direction_headways_eq (fs : List (RdRow × Option Rat)) (dd : Int) :
    ((diffsOptRat ((sortByLe (fun a b => optRatLe a.2 b.2)
        (fs.filter (fun p => p.1.direction_id = dd))).map (fun p => p.2))).filterMap id).filter
      (fun h => decide (0 ≤ h)) =
    (diffPairs (sortByLe (fun a b => decide (a ≤ b))
        ((fs.filter (fun p => p.1.direction_id = dd)).filterMap (fun p => p.2)))).filter
      (fun h => decide (0 ≤ h)) := by
  have htotp : ∀ a b : RdRow × Option Rat,
      optRatLe a.2 b.2 = true ∨ optRatLe b.2 a.2 = true :=
    fun a b => optRatLe_total a.2 b.2
  have htrp : ∀ a b c : RdRow × Option Rat, optRatLe a.2 b.2 = true →
      optRatLe b.2 c.2 = true → optRatLe a.2 c.2 = true :=
    fun a b c h1 h2 => optRatLe_trans h1 h2
  have hpw_pairs := sortByLe_pairwise htotp htrp (fs.filter (fun p => p.1.direction_id = dd))
  have hpw : List.Pairwise (fun a b : Option Rat => optRatLe a b = true)
      ((sortByLe (fun a b : RdRow × Option Rat => optRatLe a.2 b.2)
        (fs.filter (fun p => p.1.direction_id = dd))).map (fun p => p.2)) :=
    List.Pairwise.map _ (fun a b hab => hab) hpw_pairs
  have hdec := sorted_opt_decomp hpw
  have hvals_sorted := sorted_opt_vals hpw
  have hspec_pairwise := @sortByLe_pairwise Rat (fun a b : Rat => decide (a ≤ b))
    (fun a b => by
      rcases le_total a b with h | h
      · exact Or.inl (by simpa using h)
      · exact Or.inr (by simpa using h))
    (fun a b c h1 h2 => by
      simp only [decide_eq_true_eq] at h1 h2 ⊢
      exact le_trans h1 h2)
    ((fs.filter (fun p => p.1.direction_id = dd)).filterMap (fun p => p.2))
  have hspec_sorted : List.Pairwise (fun a b : Rat => a ≤ b)
      (sortByLe (fun a b => decide (a ≤ b))
        ((fs.filter (fun p => p.1.direction_id = dd)).filterMap (fun p => p.2))) :=
    hspec_pairwise.imp (fun h => of_decide_eq_true h)
  have hperm : (((sortByLe (fun a b : RdRow × Option Rat => optRatLe a.2 b.2)
      (fs.filter (fun p => p.1.direction_id = dd))).map (fun p => p.2)).filterMap id).Perm
      (sortByLe (fun a b => decide (a ≤ b))
        ((fs.filter (fun p => p.1.direction_id = dd)).filterMap (fun p => p.2))) := by
    rw [List.filterMap_map]
    have hp1 : ((sortByLe (fun a b : RdRow × Option Rat => optRatLe a.2 b.2)
        (fs.filter (fun p => p.1.direction_id = dd))).filterMap
          (id ∘ fun p : RdRow × Option Rat => p.2)).Perm
        ((fs.filter (fun p => p.1.direction_id = dd)).filterMap
          (id ∘ fun p : RdRow × Option Rat => p.2)) :=
      (sortByLe_perm _ _).filterMap _
    refine hp1.trans ?_
    exact (sortByLe_perm _ _).symm
  have hvals_eq := List.eq_of_perm_of_sorted hperm hvals_sorted hspec_sorted
  rw [hdec, filterMap_diffsOpt, hvals_eq]

theorem rdPooled_eq_spec (ftrips : List TripRow) (sts : List StopTimeRow)
    (stps : List StopRow) :
    rdPooled ftrips sts stps = pooledHeadwaysSpec (rdFirstSorted ftrips sts stps) := by
  unfold rdPooled pooledHeadwaysSpec
  apply flatMap_congr
  intro dd _
  exact rd_direction_headways_eq (rdFirstSorted ftrips sts stps) dd

theorem rdPooled_nonneg (ftrips : List TripRow) (sts : List StopTimeRow)
    (stps : List StopRow) : ∀ x ∈ rdPooled ftrips sts stps, 0 ≤ x := by
  intro x hx
  unfold rdPooled at hx
  obtain ⟨dd, _, hmem⟩ := List.mem_flatMap.mp hx
  have hfl := (List.mem_filter.mp hmem).2
  simpa using hfl

theorem rdAvgHeadway_spec (ftrips : List TripRow) (sts : List StopTimeRow)
    (stps : List StopRow) :
    optRound2 (rdAvgHeadway ftrips sts stps) =
    (if rdPooled ftrips sts stps = [] then none
     else some (round2 ((rdPooled ftrips sts stps).sum /
       ((rdPooled ftrips sts stps).length : Rat)))) := by
  unfold rdAvgHeadway
  by_cases hnil : rdPooled ftrips sts stps = []
  · rw [hnil]
    simp [optRound2]
  · have hlen : ¬ ((rdPooled ftrips sts stps).length = 0) := by
      simpa [List.length_eq_zero] using hnil
    rw [if_neg hlen, if_neg hnil]
    simp [optRound2, round2_idem]

theorem get_route_details_avg {g : GtfsData} {rs : List RouteRow} {ts : List TripRow}
    {sts : List StopTimeRow} {stps : List StopRow} {rid : String} {sid : Option String}
    {row : RouteRow} {rest : List RouteRow}
    (hr : g.routes = some rs) (ht : g.trips = some ts) (hs : g.stop_times = some sts)
    (hst : g.stops = some stps)
    (hflt : rs.filter (fun r => r.route_id = rid) = row :: rest) :
    (get_route_details g rid sid).map (fun d => d.avg_headway_min) =
      .ok (optRound2 (rdAvgHeadway (rdFilteredTrips ts rid sid) sts stps)) := by
  unfold get_route_details
  rw [hr, ht, hs, hst]
  simp only [getTable, except_ok_bind]
  rw [hflt]
  rfl

/-- Claim C7: in `routeDetails`, headways are computed independently within
each direction_id, negative differences are excluded, and the reported
average is the mean of the pooled remaining values (all nonnegative), rounded
half-even to 2 decimals — pooling across directions before averaging, exactly
as the spec-side formulation `pooledHeadwaysSpec` states, and not an average
of per-direction means. -/
theorem C7_route_details_headways (g : GtfsData) (rid : String) (sid : Option String)
    (rs : List RouteRow) (ts : List TripRow) (sts : List StopTimeRow) (stps : List StopRow)
    (d : RouteDetailsOut)
    (hr : g.routes = some rs) (ht : g.trips = some ts) (hs : g.stop_times = some sts)
    (hst : g.stops = some stps)
    (hok : get_route_details g rid sid = .ok d) :
    (∀ x ∈ rdPooled (rdFilteredTrips ts rid sid) sts stps, 0 ≤ x)
    ∧ rdPooled (rdFilteredTrips ts rid sid) sts stps =
        pooledHeadwaysSpec (rdFirstSorted (rdFilteredTrips ts rid sid) sts stps)
    ∧ d.avg_headway_min =
        (if rdPooled (rdFilteredTrips ts rid sid) sts stps = [] then none
         else some (round2 ((rdPooled (rdFilteredTrips ts rid sid) sts stps).sum /
           ((rdPooled (rdFilteredTrips ts rid sid) sts stps).length : Rat)))) := by
  refine ⟨rdPooled_nonneg _ _ _, rdPooled_eq_spec _ _ _, ?_⟩
  cases hflt : rs.filter (fun r => r.route_id = rid) with
  | nil =>
    unfold get_route_details at hok
    rw [hr] at hok
    simp only [getTable, except_ok_bind] at hok
    rw [hflt] at hok
    simp [throw, throwThe, MonadExceptOf.throw] at hok
  | cons row rest =>
    have havg := @get_route_details_avg g rs ts sts stps rid sid row rest hr ht hs hst hflt
    rw [hok] at havg
    simp only [Except.map] at havg
    injection havg with h2
    rw [h2]
    exact rdAvgHeadway_spec (rdFilteredTrips ts rid sid) sts stps

end GTFS

namespace GTFS

/-- Output of `routeDetails` on the scenario tables with stops: directions 0
(T1, T2) and 1 (T3) pool headways [30], giving average 30.0. -/
def rdOutScenario : RouteDetailsOut :=
  { route_id := "R1", short_name := "1", long_name := "One", route_type := 3,
    num_stops := 1, num_trips := 3, avg_headway_min := some 30,
    first_trip := some "08:00:00", last_trip := some "08:30:00",
    service_span_hours := some (1/2),
    stops := [{ stop_id := "A", stop_name := "Alpha", stop_lat := 1, stop_lon := 2,
                stop_sequence := 1 }],
    departure_times := [some "08:00:00", some "08:10:00", some "08:30:00"],
    shape_coords := none }

/-- Witness for C7 on the scenario tables with stops: T1 and T2 run in
direction 0, T3 in direction 1, so the pooled sample is [30] and the reported
average headway is 30.0, not an average of per-direction means. -/
theorem C7_witness :
    get_route_details gScenarioStops "R1" none = .ok rdOutScenario
    ∧ ((∀ x ∈ rdPooled (rdFilteredTrips [t1, t2, t3] "R1" none) [st1, st2, st3] [stopA], 0 ≤ x)
       ∧ rdPooled (rdFilteredTrips [t1, t2, t3] "R1" none) [st1, st2, st3] [stopA] =
           pooledHeadwaysSpec (rdFirstSorted (rdFilteredTrips [t1, t2, t3] "R1" none)
             [st1, st2, st3] [stopA])
       ∧ rdOutScenario.avg_headway_min =
           (if rdPooled (rdFilteredTrips [t1, t2, t3] "R1" none) [st1, st2, st3] [stopA] = []
            then none
            else some (round2 ((rdPooled (rdFilteredTrips [t1, t2, t3] "R1" none)
                [st1, st2, st3] [stopA]).sum /
              ((rdPooled (rdFilteredTrips [t1, t2, t3] "R1" none)
                [st1, st2, st3] [stopA]).length : Rat))))) := by
  have hok : get_route_details gScenarioStops "R1" none = .ok rdOutScenario := by
    with_unfolding_all rfl
  exact ⟨hok, C7_route_details_headways gScenarioStops "R1" none [r1] [t1, t2, t3]
    [st1, st2, st3] [stopA] rdOutScenario rfl rfl rfl rfl hok⟩

end GTFS
